import Mathlib

/-!
Verification development for the AKS-preview add-on management fragment:
the add-on reconciliation (`_update_addons`), the role-assignment deletion
wait loop (`_delete_role_assignments`) and the submission decision of
`aks_enable_addons`, all from `src/aks-preview/azext_aks_preview/custom.py`.

Python dictionaries are modelled as association lists with insertion-order
semantics (update-in-place on existing keys, append on new keys), Python
`None` as `Option.none`, and the in-place mutation of the cluster object as
explicit state passing.  A raised `CLIError` is modelled as an `Except.error`
carrying both the message and the cluster object as observable at the moment
of the raise (Python mutation leaves earlier writes in place).
-/

set_option autoImplicit false

namespace AksPreview

/-! ### Python string primitives

`str.split(',')` and `str.lower()` are embedded as structurally recursive
functions on the character list of a string, so that every definition in this
file evaluates inside the kernel. -/

/-- Helper for `pySplit`: the characters read so far since the last separator
are accumulated in reverse. -/
def pySplitAux : List Char → List Char → List (List Char)
  | [], acc => [acc.reverse]
  | c :: rest, acc =>
    if c = ',' then acc.reverse :: pySplitAux rest [] else pySplitAux rest (c :: acc)

/-- Python `s.split(',')`: always yields at least one token; empty segments
(empty string, doubled or trailing commas) yield empty tokens. -/
def pySplit (s : String) : List String := (pySplitAux s.data []).map String.mk

/-- Python `s.lower()` (the relevant keys are ASCII). -/
def pyLower (s : String) : String := ⟨s.data.map Char.toLower⟩

/-! ### Python dict operations on association lists -/

/-- `d.get(k)` / `d[k]`: value of the first entry whose key is `k`. -/
def dictGet {α : Type} (m : List (String × α)) (k : String) : Option α :=
  (m.find? (fun e => e.1 = k)).map (·.2)

/-- `k in d`: membership test on keys. -/
def dictMem {α : Type} (m : List (String × α)) (k : String) : Bool :=
  m.any (fun e => e.1 = k)

/-- `d[k] = v`: update in place when the key exists, append otherwise
(Python dicts keep insertion order). -/
def dictInsert {α : Type} (m : List (String × α)) (k : String) (v : α) :
    List (String × α) :=
  match m with
  | [] => [(k, v)]
  | (k', v') :: t => if k' = k then (k, v) :: t else (k', v') :: dictInsert t k v

/-- `d.pop(k)`: remove the first entry whose key is `k`. -/
def dictPop {α : Type} (m : List (String × α)) (k : String) :
    List (String × α) :=
  match m with
  | [] => []
  | (k', v') :: t => if k' = k then t else (k', v') :: dictPop t k

/-- `d[k].f = x`: modify the value of an existing entry in place. -/
def dictModify {α : Type} (m : List (String × α)) (k : String) (f : α → α) :
    List (String × α) :=
  match m with
  | [] => []
  | (k', v') :: t => if k' = k then (k', f v') :: t else (k', v') :: dictModify t k f

/-- The keys of a dict, in insertion order (`list(d)`). -/
def dictKeys {α : Type} (m : List (String × α)) : List String :=
  m.map Prod.fst

/-! ### Data model -/

/-- Values stored in an addon-profile `config` dict.  The Python source
assigns both strings and raw booleans (`enable_msi_auth_for_monitoring`), so
the value type is the sum of the two. -/
inductive ConfigVal where
  | str (s : String)
  | bool (b : Bool)
  deriving DecidableEq, Repr

abbrev ConfigMap := List (String × ConfigVal)

/-- `ManagedClusterAddonProfile(enabled=..., config=...)`; a fresh profile has
`config = None`. -/
structure ManagedClusterAddonProfile where
  enabled : Bool
  config : Option ConfigMap := none
  deriving DecidableEq, Repr

abbrev AddonMap := List (String × ManagedClusterAddonProfile)

/-- `ManagedClusterIngressProfileWebAppRouting()`: fresh instance has both
fields `None`. -/
structure ManagedClusterIngressProfileWebAppRouting where
  enabled : Option Bool := none
  dns_zone_resource_id : Option String := none
  deriving DecidableEq, Repr

/-- `ManagedClusterIngressProfile()`. -/
structure ManagedClusterIngressProfile where
  web_app_routing : Option ManagedClusterIngressProfileWebAppRouting := none
  deriving DecidableEq, Repr

structure ManagedClusterServicePrincipalProfile where
  client_id : String
  deriving DecidableEq, Repr

/-- The slice of the `ManagedCluster` resource that `_update_addons` and
`aks_enable_addons` touch, plus representative fields (`location`,
`kubernetes_version`) standing for everything the reconciliation must not
mutate. -/
structure ManagedCluster where
  addon_profiles : Option AddonMap := none
  ingress_profile : Option ManagedClusterIngressProfile := none
  service_principal_profile : Option ManagedClusterServicePrincipalProfile := none
  location : String := ""
  kubernetes_version : String := ""
  deriving DecidableEq, Repr

/-! ### The ADDONS catalog

Modelled from the spec: the `ADDONS` table lives in
`azext_aks_preview/_consts.py`, which is not part of the sources given here
(only `custom.py`, which imports it, is).  The spec describes it as a static
read-only map from human-facing add-on name to canonical profile key
(§3 AddonDescriptor), names `monitoring`, `http_application_routing`,
`virtual-node` (base key `aciConnector`, suffixed to `aciConnectorLinux`),
the dashboard add-on, and `custom.py` itself branches on the canonical keys
of `ingress-appgw`, `open-service-mesh`, `confcom` and
`azure-keyvault-secrets-provider`. -/
def CONST_HTTP_APPLICATION_ROUTING_ADDON_NAME : String := "httpApplicationRouting"
def CONST_MONITORING_ADDON_NAME : String := "omsagent"
def CONST_VIRTUAL_NODE_ADDON_NAME : String := "aciConnector"
def CONST_AZURE_POLICY_ADDON_NAME : String := "azurepolicy"
def CONST_KUBE_DASHBOARD_ADDON_NAME : String := "kubeDashboard"
def CONST_INGRESS_APPGW_ADDON_NAME : String := "ingressApplicationGateway"
def CONST_OPEN_SERVICE_MESH_ADDON_NAME : String := "openServiceMesh"
def CONST_CONFCOM_ADDON_NAME : String := "ACCSGXDevicePlugin"
def CONST_AZURE_KEYVAULT_SECRETS_PROVIDER_ADDON_NAME : String :=
  "azureKeyvaultSecretsProvider"

def CONST_MONITORING_LOG_ANALYTICS_WORKSPACE_RESOURCE_ID : String :=
  "logAnalyticsWorkspaceResourceID"
def CONST_MONITORING_USING_AAD_MSI_AUTH : String := "useAADAuth"
def CONST_VIRTUAL_NODE_SUBNET_NAME : String := "SubnetName"
def CONST_INGRESS_APPGW_APPLICATION_GATEWAY_NAME : String := "applicationGatewayName"
def CONST_INGRESS_APPGW_APPLICATION_GATEWAY_ID : String := "applicationGatewayId"
def CONST_INGRESS_APPGW_SUBNET_CIDR : String := "subnetCIDR"
def CONST_INGRESS_APPGW_SUBNET_ID : String := "subnetId"
def CONST_INGRESS_APPGW_WATCH_NAMESPACE : String := "watchNamespace"
def CONST_ACC_SGX_QUOTE_HELPER_ENABLED : String := "ACCSGXQuoteHelperEnabled"
def CONST_SECRET_ROTATION_ENABLED : String := "enableSecretRotation"
def CONST_ROTATION_POLL_INTERVAL : String := "rotationPollInterval"

/-- Modelled from the spec: the `ADDONS` catalog of `_consts.py`, mapping
human-facing names to canonical profile keys. -/
def ADDONS : List (String × String) :=
  [("http_application_routing", CONST_HTTP_APPLICATION_ROUTING_ADDON_NAME),
   ("monitoring", CONST_MONITORING_ADDON_NAME),
   ("virtual-node", CONST_VIRTUAL_NODE_ADDON_NAME),
   ("azure-policy", CONST_AZURE_POLICY_ADDON_NAME),
   ("kube-dashboard", CONST_KUBE_DASHBOARD_ADDON_NAME),
   ("ingress-appgw", CONST_INGRESS_APPGW_ADDON_NAME),
   ("open-service-mesh", CONST_OPEN_SERVICE_MESH_ADDON_NAME),
   ("confcom", CONST_CONFCOM_ADDON_NAME),
   ("azure-keyvault-secrets-provider", CONST_AZURE_KEYVAULT_SECRETS_PROVIDER_ADDON_NAME)]

/-! ### `_update_addons` -/

/-- The keyword arguments of `_update_addons` (all defaulted in the source),
together with the two external collaborators invoked by the monitoring
branch: `sanitize` stands for `sanitize_loganalytics_ws_resource_id` and
`default_workspace` for the result of
`ensure_default_log_analytics_workspace_for_monitoring` (both live in
`azure.cli.command_modules.acs`, outside this repository, and are treated as
pure calls with well-defined results per spec §6). -/
structure UpdateArgs where
  workspace_resource_id : Option String := none
  enable_msi_auth_for_monitoring : Bool := false
  subnet_name : Option String := none
  appgw_name : Option String := none
  appgw_subnet_prefix : Option String := none
  appgw_subnet_cidr : Option String := none
  appgw_id : Option String := none
  appgw_subnet_id : Option String := none
  appgw_watch_namespace : Option String := none
  enable_sgxquotehelper : Bool := false
  enable_secret_rotation : Bool := false
  disable_secret_rotation : Bool := false
  rotation_poll_interval : Option String := none
  dns_zone_resource_id : Option String := none
  sanitize : String → String := id
  default_workspace : String := ""

/-- Python truthiness test for an optional string (`if not x:`). -/
def pyStrFalsy : Option String → Bool
  | none => true
  | some s => s.data.isEmpty

/-- Loop state while `_update_addons` runs.  `cluster` carries the instance
fields with its original `addon_profiles`; `working` is the local
`addon_profiles` dict; `shared` records whether that dict is the very object
stored in the instance (`instance.addon_profiles or {}` aliases it exactly
when the stored dict is truthy, i.e. present and non-empty), so that writes
to it are observable on the instance should a later token raise. -/
structure MCState where
  cluster : ManagedCluster
  working : AddonMap
  shared : Bool

/-- The instance as observable at a given moment (e.g. when a `CLIError` is
raised): dict writes have reached the instance only through the alias. -/
def observe (s : MCState) : ManagedCluster :=
  if s.shared then { s.cluster with addon_profiles := some s.working } else s.cluster

/-- `for key in list(addon_profiles): if key.lower() == addon.lower() and
key != addon: addon_profiles[addon] = addon_profiles.pop(key)` — coalesce
case-variant keys onto the canonical `addon` key.  The iteration is over a
snapshot of the keys; `dictGet` before the pop reads the value the source's
`pop(key)` returns (always present: the snapshot lists existing keys). -/
def coalesceStep (addon : String) (acc : AddonMap) (key : String) : AddonMap :=
  if pyLower key = pyLower addon ∧ key ≠ addon then
    match dictGet acc key with
    | some v => dictInsert (dictPop acc key) addon v
    | none => acc
  else acc

def coalesceCase (m : AddonMap) (addon : String) : AddonMap :=
  (dictKeys m).foldl (coalesceStep addon) m

/-- The `web_application_routing` branch of the loop of `_update_addons`:
web app routing settings are in the ingress profile, not the addon profile,
so the cluster object is mutated directly. -/
def webAppRoutingStep (c : ManagedCluster) (args : UpdateArgs) (enable : Bool) :
    ManagedCluster :=
  let ip := (c.ingress_profile).getD {}
  let war := (ip.web_app_routing).getD {}
  let war := { war with enabled := some enable }
  let war :=
    match args.dns_zone_resource_id with
    | some d => { war with dns_zone_resource_id := some d }
    | none => war
  { c with ingress_profile := some { ip with web_app_routing := some war } }

/-- The body of the `for addon_arg in addon_args` loop of `_update_addons`
for a catalog add-on (`base` is the catalog value for the token), acting on
the `addon_profiles` dict: resolve the canonical key (OS suffix for the
virtual-node base key), coalesce case-variant keys, then enable with the
add-on-specific configuration or disable.  A `CLIError` carries the dict as
already mutated (the coalescing writes precede the raise). -/
def catalogAddonStep (resource_group_name name : String) (args : UpdateArgs)
    (enable : Bool) (working0 : AddonMap) (base : String) :
    Except (String × AddonMap) AddonMap :=
  let os_type := "Linux"
  let addon := if base = CONST_VIRTUAL_NODE_ADDON_NAME then base ++ os_type else base
  -- honor addon names defined in Azure CLI
  let working := coalesceCase working0 addon
  if enable then
    let addon_profile := (dictGet working addon).getD { enabled := false }
    if addon = CONST_MONITORING_ADDON_NAME then
      if addon_profile.enabled then
        .error ("The monitoring addon is already enabled for this managed cluster.\n" ++
          "To change monitoring configuration, run \x22az aks disable-addons -a monitoring\x22" ++
          "before enabling it again.", working)
      else
        let workspace_resource_id :=
          if pyStrFalsy args.workspace_resource_id then args.default_workspace
          else args.workspace_resource_id.getD ""
        let workspace_resource_id := args.sanitize workspace_resource_id
        let cfg : ConfigMap :=
          [(CONST_MONITORING_LOG_ANALYTICS_WORKSPACE_RESOURCE_ID,
            .str workspace_resource_id)]
        let cfg := dictInsert cfg CONST_MONITORING_USING_AAD_MSI_AUTH
          (.bool args.enable_msi_auth_for_monitoring)
        let addon_profile := { addon_profile with config := some cfg }
        .ok (dictModify (dictInsert working addon addon_profile) addon
          (fun p => { p with enabled := enable }))
    else if addon = CONST_VIRTUAL_NODE_ADDON_NAME ++ os_type then
      if addon_profile.enabled then
        .error ("The virtual-node addon is already enabled for this managed cluster.\n" ++
          "To change virtual-node configuration, run " ++
          "\x22az aks disable-addons -a virtual-node -g {resource_group_name}\x22 " ++
          "before enabling it again.", working)
      else if pyStrFalsy args.subnet_name then
        .error ("The aci-connector addon requires setting a subnet name.", working)
      else
        let cfg : ConfigMap :=
          [(CONST_VIRTUAL_NODE_SUBNET_NAME, .str (args.subnet_name.getD ""))]
        let addon_profile := { addon_profile with config := some cfg }
        .ok (dictModify (dictInsert working addon addon_profile) addon
          (fun p => { p with enabled := enable }))
    else if addon = CONST_INGRESS_APPGW_ADDON_NAME then
      if addon_profile.enabled then
        .error ("The ingress-appgw addon is already enabled for this managed cluster.\n" ++
          "To change ingress-appgw configuration, run " ++
          "\x22az aks disable-addons -a ingress-appgw -n " ++ name ++ " -g " ++
          resource_group_name ++ "\x22 before enabling it again.", working)
      else
        let cfg : ConfigMap := []
        let cfg := match args.appgw_name with
          | some v => dictInsert cfg CONST_INGRESS_APPGW_APPLICATION_GATEWAY_NAME (.str v)
          | none => cfg
        let cfg := match args.appgw_subnet_prefix with
          | some v => dictInsert cfg CONST_INGRESS_APPGW_SUBNET_CIDR (.str v)
          | none => cfg
        let cfg := match args.appgw_subnet_cidr with
          | some v => dictInsert cfg CONST_INGRESS_APPGW_SUBNET_CIDR (.str v)
          | none => cfg
        let cfg := match args.appgw_id with
          | some v => dictInsert cfg CONST_INGRESS_APPGW_APPLICATION_GATEWAY_ID (.str v)
          | none => cfg
        let cfg := match args.appgw_subnet_id with
          | some v => dictInsert cfg CONST_INGRESS_APPGW_SUBNET_ID (.str v)
          | none => cfg
        let cfg := match args.appgw_watch_namespace with
          | some v => dictInsert cfg CONST_INGRESS_APPGW_WATCH_NAMESPACE (.str v)
          | none => cfg
        let addon_profile : ManagedClusterAddonProfile :=
          { enabled := true, config := some cfg }
        .ok (dictModify (dictInsert working addon addon_profile) addon
          (fun p => { p with enabled := enable }))
    else if addon = CONST_OPEN_SERVICE_MESH_ADDON_NAME then
      if addon_profile.enabled then
        .error ("The open-service-mesh addon is already enabled for this managed cluster.\n" ++
          "To change open-service-mesh configuration, run " ++
          "\x22az aks disable-addons -a open-service-mesh -n " ++ name ++ " -g " ++
          resource_group_name ++ "\x22 before enabling it again.", working)
      else
        let addon_profile : ManagedClusterAddonProfile :=
          { enabled := true, config := some [] }
        .ok (dictModify (dictInsert working addon addon_profile) addon
          (fun p => { p with enabled := enable }))
    else if addon = CONST_CONFCOM_ADDON_NAME then
      if addon_profile.enabled then
        .error ("The confcom addon is already enabled for this managed cluster.\n" ++
          "To change confcom configuration, run " ++
          "\x22az aks disable-addons -a confcom -n " ++ name ++ " -g " ++
          resource_group_name ++ "\x22 before enabling it again.", working)
      else
        let cfg : ConfigMap := [(CONST_ACC_SGX_QUOTE_HELPER_ENABLED, .str "false")]
        let cfg :=
          if args.enable_sgxquotehelper then
            dictInsert cfg CONST_ACC_SGX_QUOTE_HELPER_ENABLED (.str "true")
          else cfg
        let addon_profile : ManagedClusterAddonProfile :=
          { enabled := true, config := some cfg }
        .ok (dictModify (dictInsert working addon addon_profile) addon
          (fun p => { p with enabled := enable }))
    else if addon = CONST_AZURE_KEYVAULT_SECRETS_PROVIDER_ADDON_NAME then
      if addon_profile.enabled then
        .error ("The azure-keyvault-secrets-provider addon is already enabled for this managed cluster.\n" ++
          "To change azure-keyvault-secrets-provider configuration, run " ++
          "\x22az aks disable-addons -a azure-keyvault-secrets-provider -n " ++ name ++
          " -g " ++ resource_group_name ++ "\x22 before enabling it again.", working)
      else
        let cfg : ConfigMap :=
          [(CONST_SECRET_ROTATION_ENABLED, .str "false"),
           (CONST_ROTATION_POLL_INTERVAL, .str "2m")]
        let cfg :=
          if args.enable_secret_rotation then
            dictInsert cfg CONST_SECRET_ROTATION_ENABLED (.str "true")
          else cfg
        let cfg :=
          if args.disable_secret_rotation then
            dictInsert cfg CONST_SECRET_ROTATION_ENABLED (.str "false")
          else cfg
        let cfg := match args.rotation_poll_interval with
          | some v => dictInsert cfg CONST_ROTATION_POLL_INTERVAL (.str v)
          | none => cfg
        let addon_profile : ManagedClusterAddonProfile :=
          { enabled := true, config := some cfg }
        -- the source stores this branch's profile twice: once under the
        -- constant and once under `addon` (they are the same key)
        let working :=
          dictInsert working CONST_AZURE_KEYVAULT_SECRETS_PROVIDER_ADDON_NAME addon_profile
        .ok (dictModify (dictInsert working addon addon_profile) addon
          (fun p => { p with enabled := enable }))
    else
      -- add-ons with no dedicated branch: store and enable, no checks
      .ok (dictModify (dictInsert working addon addon_profile) addon
        (fun p => { p with enabled := enable }))
  else
    if ¬ dictMem working addon then
      if addon = CONST_KUBE_DASHBOARD_ADDON_NAME then
        let working := dictInsert working addon { enabled := false }
        let working := dictModify working addon (fun p => { p with config := none })
        .ok (dictModify working addon (fun p => { p with enabled := enable }))
      else
        .error ("The addon " ++ addon ++ " is not installed.", working)
    else
      let working := dictModify working addon (fun p => { p with config := none })
      .ok (dictModify working addon (fun p => { p with enabled := enable }))

/-- One iteration of the `for addon_arg in addon_args` loop of
`_update_addons`.  Returns the new state, or the `CLIError` message with the
state at the raise (the working dict as mutated so far). -/
def processAddonArg (resource_group_name name : String) (args : UpdateArgs)
    (enable : Bool) (s : MCState) (addon_arg : String) :
    Except (String × MCState) MCState :=
  if addon_arg = "web_application_routing" then
    .ok { s with cluster := webAppRoutingStep s.cluster args enable }
  else
    match dictGet ADDONS addon_arg with
    | none => .error ("Invalid addon name: " ++ addon_arg ++ ".", s)
    | some base =>
      match catalogAddonStep resource_group_name name args enable s.working base with
      | .error (msg, w) => .error (msg, { s with working := w })
      | .ok w => .ok { s with working := w }

/-- `addon_profiles = instance.addon_profiles or {}`: the working dict at
loop entry — the stored dict when truthy (present and non-empty), a fresh
empty dict otherwise. -/
def initialWorking (inst : ManagedCluster) : AddonMap :=
  match inst.addon_profiles with
  | some m => if m.isEmpty then [] else m
  | none => []

/-- Whether the working dict is the very object stored in the instance
(`or` keeps the stored dict exactly when it is truthy). -/
def initialShared (inst : ManagedCluster) : Bool :=
  match inst.addon_profiles with
  | some m => !m.isEmpty
  | none => false

/-- `_update_addons(cmd, instance, subscription_id, resource_group_name,
name, addons, enable, **kwargs)`.  On success the instance carries the
working dict as its addon profiles and a cleared service-principal profile;
on a `CLIError` the message is returned with the instance as mutated so
far. -/
def update_addons (inst : ManagedCluster) (resource_group_name name : String)
    (addons : String) (enable : Bool) (args : UpdateArgs) :
    Except (String × ManagedCluster) ManagedCluster :=
  let addon_args := pySplit addons
  match addon_args.foldlM (processAddonArg resource_group_name name args enable)
      { cluster := inst, working := initialWorking inst, shared := initialShared inst } with
  | .error (msg, s) => .error (msg, observe s)
  | .ok s =>
    .ok { s.cluster with
      addon_profiles := some s.working,
      -- null out the SP profile because otherwise validation complains
      service_principal_profile := none }

/-- A token of the `addons` argument that `_update_addons` accepts: the
literal `web_application_routing` or a key of the `ADDONS` catalog. -/
def validAddonArg (t : String) : Bool :=
  t = "web_application_routing" || (dictGet ADDONS t).isSome

/-- The canonical profile key of a catalog entry: the virtual-node base key
gets the hard-coded `Linux` OS suffix appended, every other base key is
already canonical (`addon += os_type` in `_update_addons`). -/
def resolveAddonKey (base : String) : String :=
  if base = CONST_VIRTUAL_NODE_ADDON_NAME then base ++ "Linux" else base

/-! ### `_delete_role_assignments` -/

/-- Outcome of one call to the remote `delete_role_assignments` operation:
success, a `CloudError` (directory propagation lag, caught and retried), or
a `CLIError` (re-raised). -/
inductive RemoteOutcome where
  | success
  | cloudError
  | cliError (msg : String)
  deriving DecidableEq, Repr

/-- Observable trace of one run of the wait loop: how many times the remote
delete was attempted, the argument of each `time.sleep` call in order, and
the outcome (`.ok b` for `return b`, `.error m` for a re-raised
`CLIError`). -/
structure DeleteRunResult where
  attempts : Nat
  sleeps : List Nat
  result : Except String Bool
  deriving Repr

/-- The `for x in range(0, 10)` loop of `_delete_role_assignments`, from
iteration `x` with `fuel` iterations left: try the remote delete and `break`
on success, re-raise a `CLIError`, swallow a `CloudError` and
`time.sleep(delay + delay * x)` before the next iteration; the loop's `else`
clause returns `False`. -/
def deleteRoleAssignmentsFrom (client : Nat → RemoteOutcome) (delay : Nat) :
    Nat → Nat → Nat → List Nat → DeleteRunResult
  | _, 0, attempts, sleeps => ⟨attempts, sleeps, .ok false⟩
  | x, fuel + 1, attempts, sleeps =>
    match client x with
    | .success => ⟨attempts + 1, sleeps, .ok true⟩
    | .cliError m => ⟨attempts + 1, sleeps, .error m⟩
    | .cloudError =>
      deleteRoleAssignmentsFrom client delay (x + 1) fuel (attempts + 1)
        (sleeps ++ [delay + delay * x])

/-- `_delete_role_assignments(cli_ctx, role, service_principal, delay=2,
scope=None)`: run the wait loop with 10 attempts from `x = 0`.  The remote
client is abstracted as the outcome of the attempt at each index. -/
def delete_role_assignments_run (client : Nat → RemoteOutcome) (delay : Nat := 2) :
    DeleteRunResult :=
  deleteRoleAssignmentsFrom client delay 0 10 0 []

/-! ### `aks_enable_addons` submission decision -/

/-- How `aks_enable_addons` submits the reconciled cluster: either it blocks
on `LongRunningOperation(cmd.cli_ctx)(client.begin_create_or_update(...))`
and uses the materialized result for the subsequent role assignments, or it
goes through `sdk_no_wait(no_wait, client.begin_create_or_update, ...)`,
which blocks on final status exactly when `no_wait` is false and returns a
poller handle otherwise. -/
inductive SubmitAction where
  | blockingLRO
  | sdkNoWait (no_wait : Bool)
  deriving DecidableEq, Repr

/-- `monitoring` flag of `aks_enable_addons`: the monitoring addon profile
key is present and its profile is enabled. -/
def monitoringEnabled (inst : ManagedCluster) : Bool :=
  let profiles := inst.addon_profiles.getD []
  dictMem profiles CONST_MONITORING_ADDON_NAME &&
    ((dictGet profiles CONST_MONITORING_ADDON_NAME).map (·.enabled)).getD false

/-- `ingress_appgw_addon_enabled` flag of `aks_enable_addons`. -/
def ingressAppgwEnabled (inst : ManagedCluster) : Bool :=
  let profiles := inst.addon_profiles.getD []
  dictMem profiles CONST_INGRESS_APPGW_ADDON_NAME &&
    ((dictGet profiles CONST_INGRESS_APPGW_ADDON_NAME).map (·.enabled)).getD false

/-- `enable_virtual_node` flag of `aks_enable_addons`: the suffixed virtual
node key is present (enabled or not). -/
def virtualNodePresent (inst : ManagedCluster) : Bool :=
  let os_type := "Linux"
  dictMem (inst.addon_profiles.getD []) (CONST_VIRTUAL_NODE_ADDON_NAME ++ os_type)

/-- The tail of `aks_enable_addons`: when any of the three post-creation
role-assignment conditions holds, submit synchronously through
`LongRunningOperation` regardless of `no_wait`; otherwise submit through
`sdk_no_wait(no_wait, ...)`. -/
def aks_enable_addons_submit (inst : ManagedCluster) (no_wait : Bool) : SubmitAction :=
  let need_post_creation_role_assignment :=
    monitoringEnabled inst || ingressAppgwEnabled inst || virtualNodePresent inst
  if need_post_creation_role_assignment then .blockingLRO else .sdkNoWait no_wait

/-! ### Lemmas about the dict operations -/

theorem dictGet_cons {α : Type} (k' : String) (v' : α) (t : List (String × α)) (k : String) :
    dictGet ((k', v') :: t) k = if k' = k then some v' else dictGet t k := by
  by_cases h : k' = k <;> simp [dictGet, List.find?_cons, h]

theorem dictKeys_cons {α : Type} (e : String × α) (t : List (String × α)) :
    dictKeys (e :: t) = e.1 :: dictKeys t := rfl

theorem dictMem_eq_isSome {α : Type} (m : List (String × α)) (k : String) :
    dictMem m k = (dictGet m k).isSome := by
  induction m with
  | nil => rfl
  | cons e t ih =>
    obtain ⟨k', v'⟩ := e
    by_cases h : k' = k <;> simp [dictMem, dictGet_cons, h, List.any_cons] <;>
      simpa [dictMem] using ih

theorem dictMem_iff_mem_keys {α : Type} (m : List (String × α)) (k : String) :
    dictMem m k = true ↔ k ∈ dictKeys m := by
  induction m with
  | nil => simp [dictMem, dictKeys]
  | cons e t ih =>
    obtain ⟨k', v'⟩ := e
    by_cases h : k' = k
    · subst h; simp [dictMem, dictKeys_cons]
    · simp only [dictMem, List.any_cons, dictKeys_cons, List.mem_cons] at ih ⊢
      simp [h, Ne.symm h, ih]

theorem dictGet_some_mem {α : Type} {m : List (String × α)} {k : String} {v : α}
    (h : dictGet m k = some v) : (k, v) ∈ m := by
  induction m with
  | nil => simp [dictGet] at h
  | cons e t ih =>
    obtain ⟨k', v'⟩ := e
    rw [dictGet_cons] at h
    split at h
    · obtain rfl := Option.some.inj h
      simp_all
    · exact List.mem_cons_of_mem _ (ih h)

theorem dictGet_of_mem_nodup {α : Type} {m : List (String × α)} {k : String} {v : α}
    (h : (k, v) ∈ m) (hn : (dictKeys m).Nodup) : dictGet m k = some v := by
  induction m with
  | nil => simp at h
  | cons e t ih =>
    obtain ⟨k', v'⟩ := e
    rw [dictKeys_cons] at hn
    rcases List.mem_cons.mp h with heq | hmem
    · obtain ⟨rfl, rfl⟩ := Prod.mk.injEq .. ▸ heq
      simp [dictGet_cons]
    · have hk : k' ≠ k := by
        rintro rfl
        exact (List.nodup_cons.mp hn).1 (by
          simpa [dictKeys] using List.mem_map_of_mem Prod.fst hmem)
      rw [dictGet_cons, if_neg hk]
      exact ih hmem (List.nodup_cons.mp hn).2

theorem dictGet_dictInsert_self {α : Type} (m : List (String × α)) (k : String) (v : α) :
    dictGet (dictInsert m k v) k = some v := by
  induction m with
  | nil => simp [dictInsert, dictGet_cons]
  | cons e t ih =>
    obtain ⟨k', v'⟩ := e
    by_cases h : k' = k <;> simp [dictInsert, h, dictGet_cons, ih]

theorem dictGet_dictInsert_ne {α : Type} (m : List (String × α)) (k k' : String) (v : α)
    (h : k' ≠ k) : dictGet (dictInsert m k v) k' = dictGet m k' := by
  induction m with
  | nil => simp [dictInsert, dictGet_cons, Ne.symm h]
  | cons e t ih =>
    obtain ⟨k'', v''⟩ := e
    by_cases hk : k'' = k
    · subst hk
      simp [dictInsert, dictGet_cons, Ne.symm h]
    · simp [dictInsert, hk, dictGet_cons, ih]

theorem dictKeys_dictModify {α : Type} (m : List (String × α)) (k : String) (f : α → α) :
    dictKeys (dictModify m k f) = dictKeys m := by
  induction m with
  | nil => rfl
  | cons e t ih =>
    obtain ⟨k', v'⟩ := e
    by_cases h : k' = k <;> simp [dictModify, h, dictKeys_cons, ih]

theorem dictGet_dictModify_self {α : Type} (m : List (String × α)) (k : String) (f : α → α) :
    dictGet (dictModify m k f) k = (dictGet m k).map f := by
  induction m with
  | nil => rfl
  | cons e t ih =>
    obtain ⟨k', v'⟩ := e
    by_cases h : k' = k <;> simp [dictModify, h, dictGet_cons, ih]

theorem dictGet_dictModify_ne {α : Type} (m : List (String × α)) (k k' : String) (f : α → α)
    (h : k' ≠ k) : dictGet (dictModify m k f) k' = dictGet m k' := by
  induction m with
  | nil => rfl
  | cons e t ih =>
    obtain ⟨k'', v''⟩ := e
    by_cases hk : k'' = k
    · subst hk
      simp [dictModify, dictGet_cons, Ne.symm h]
    · simp [dictModify, hk, dictGet_cons, ih]

theorem dictModify_dictModify {α : Type} (m : List (String × α)) (k : String) (f g : α → α) :
    dictModify (dictModify m k f) k g = dictModify m k (fun v => g (f v)) := by
  induction m with
  | nil => rfl
  | cons e t ih =>
    obtain ⟨k', v'⟩ := e
    by_cases h : k' = k <;> simp [dictModify, h, ih]

theorem dictModify_eq_self {α : Type} (m : List (String × α)) (k : String) (f : α → α)
    (h : ∀ v, dictGet m k = some v → f v = v) : dictModify m k f = m := by
  induction m with
  | nil => rfl
  | cons e t ih =>
    obtain ⟨k', v'⟩ := e
    by_cases hk : k' = k
    · subst hk
      have := h v' (by simp [dictGet_cons])
      simp [dictModify, this]
    · simp [dictModify, hk]
      exact ih (fun v hv => h v (by simp [dictGet_cons, hk, hv]))

theorem dictInsert_of_not_mem {α : Type} (m : List (String × α)) (k : String) (v : α)
    (h : ¬ k ∈ dictKeys m) : dictInsert m k v = m ++ [(k, v)] := by
  induction m with
  | nil => rfl
  | cons e t ih =>
    obtain ⟨k', v'⟩ := e
    rw [dictKeys_cons] at h
    simp only [List.mem_cons, not_or] at h
    simp [dictInsert, Ne.symm h.1, ih h.2]

theorem mem_keys_dictInsert {α : Type} (m : List (String × α)) (k a : String) (v : α) :
    a ∈ dictKeys (dictInsert m k v) ↔ a ∈ dictKeys m ∨ a = k := by
  induction m with
  | nil => simp [dictInsert, dictKeys]
  | cons e t ih =>
    obtain ⟨k', v'⟩ := e
    by_cases h : k' = k
    · subst h
      simp [dictInsert, dictKeys_cons]
      tauto
    · simp [dictInsert, h, dictKeys_cons, ih]
      tauto

theorem mem_dictInsert {α : Type} {m : List (String × α)} {k : String} {v : α}
    {e : String × α} (h : e ∈ dictInsert m k v) : e ∈ m ∨ e = (k, v) := by
  induction m with
  | nil => simpa [dictInsert] using h
  | cons e' t ih =>
    obtain ⟨k', v'⟩ := e'
    by_cases hk : k' = k
    · subst hk
      rcases List.mem_cons.mp (by simpa [dictInsert] using h) with h' | h'
      · exact Or.inr h'
      · exact Or.inl (List.mem_cons_of_mem _ h')
    · rcases List.mem_cons.mp (by simpa [dictInsert, hk] using h) with h' | h'
      · exact Or.inl (by simp [h'])
      · rcases ih h' with h'' | h''
        · exact Or.inl (List.mem_cons_of_mem _ h'')
        · exact Or.inr h''

theorem mem_dictPop {α : Type} {m : List (String × α)} {k : String} {e : String × α}
    (h : e ∈ dictPop m k) : e ∈ m := by
  induction m with
  | nil => simpa [dictPop] using h
  | cons e' t ih =>
    obtain ⟨k', v'⟩ := e'
    by_cases hk : k' = k
    · exact List.mem_cons_of_mem _ (by simpa [dictPop, hk] using h)
    · rcases List.mem_cons.mp (by simpa [dictPop, hk] using h) with h' | h'
      · exact Or.inl h' |> List.mem_cons.mpr
      · exact List.mem_cons_of_mem _ (ih h')

theorem mem_keys_dictPop {α : Type} {m : List (String × α)} {k a : String}
    (h : a ∈ dictKeys (dictPop m k)) : a ∈ dictKeys m := by
  simp only [dictKeys, List.mem_map] at h ⊢
  obtain ⟨e, he, rfl⟩ := h
  exact ⟨e, mem_dictPop he, rfl⟩

theorem not_mem_keys_dictPop_self {α : Type} {m : List (String × α)} {k : String}
    (hn : (dictKeys m).Nodup) : ¬ k ∈ dictKeys (dictPop m k) := by
  induction m with
  | nil => simp [dictPop, dictKeys]
  | cons e t ih =>
    obtain ⟨k', v'⟩ := e
    rw [dictKeys_cons] at hn
    by_cases hk : k' = k
    · subst hk
      simpa [dictPop] using (List.nodup_cons.mp hn).1
    · simp only [dictPop, if_neg hk, dictKeys_cons, List.mem_cons, not_or]
      exact ⟨fun h => hk h.symm, ih (List.nodup_cons.mp hn).2⟩

theorem nodup_keys_dictPop {α : Type} {m : List (String × α)} (k : String)
    (hn : (dictKeys m).Nodup) : (dictKeys (dictPop m k)).Nodup := by
  induction m with
  | nil => simpa [dictPop] using hn
  | cons e t ih =>
    obtain ⟨k', v'⟩ := e
    rw [dictKeys_cons] at hn
    obtain ⟨h1, h2⟩ := List.nodup_cons.mp hn
    by_cases hk : k' = k
    · simpa [dictPop, hk] using h2
    · simp only [dictPop, if_neg hk, dictKeys_cons]
      exact List.nodup_cons.mpr ⟨fun h => h1 (mem_keys_dictPop h), ih h2⟩

theorem nodup_keys_dictInsert {α : Type} {m : List (String × α)} (k : String) (v : α)
    (hn : (dictKeys m).Nodup) : (dictKeys (dictInsert m k v)).Nodup := by
  induction m with
  | nil => simp [dictInsert, dictKeys]
  | cons e t ih =>
    obtain ⟨k', v'⟩ := e
    rw [dictKeys_cons] at hn
    obtain ⟨h1, h2⟩ := List.nodup_cons.mp hn
    by_cases hk : k' = k
    · subst hk
      simpa [dictInsert, dictKeys_cons] using List.nodup_cons.mpr ⟨h1, h2⟩
    · simp only [dictInsert, if_neg hk, dictKeys_cons]
      refine List.nodup_cons.mpr ⟨fun h => ?_, ih h2⟩
      rcases (mem_keys_dictInsert t k k' v).mp h with h' | h'
      · exact h1 h'
      · exact hk h'

theorem nodup_keys_dictModify {α : Type} {m : List (String × α)} (k : String) (f : α → α)
    (hn : (dictKeys m).Nodup) : (dictKeys (dictModify m k f)).Nodup := by
  rw [dictKeys_dictModify]; exact hn

theorem mem_keys_iff_isSome {α : Type} (m : List (String × α)) (k : String) :
    k ∈ dictKeys m ↔ (dictGet m k).isSome := by
  rw [← dictMem_iff_mem_keys, dictMem_eq_isSome]

/-! ### Lemmas about case coalescing -/

theorem foldl_fixed {α β : Type} (f : β → α → β) (b : β) (l : List α)
    (h : ∀ a ∈ l, f b a = b) : l.foldl f b = b := by
  induction l with
  | nil => rfl
  | cons a t ih =>
    rw [List.foldl_cons, h a (List.mem_cons_self a t)]
    exact ih (fun x hx => h x (List.mem_cons_of_mem a hx))

/-- When no key of `m` is a case variant of `addon`, the coalescing loop is
the identity. -/
theorem coalesceCase_eq_self (m : AddonMap) (addon : String)
    (h : ∀ k ∈ dictKeys m, pyLower k = pyLower addon → k = addon) :
    coalesceCase m addon = m := by
  unfold coalesceCase
  apply foldl_fixed
  intro key hkey
  have hc : ¬ (pyLower key = pyLower addon ∧ key ≠ addon) := by
    rintro ⟨h1, h2⟩; exact h2 (h key hkey h1)
  simp [coalesceStep, hc]

/-- Behaviour of the coalescing fold over any snapshot of keys: keys stay
duplicate-free, no new key other than the canonical one appears, every
visited case-variant key is gone, and every surviving entry is either an
original entry or the canonical key holding the profile of an original
case-variant entry. -/
theorem coalesce_foldl_spec (addon : String) (keys : List String) :
    ∀ acc : AddonMap, (dictKeys acc).Nodup →
      (dictKeys (keys.foldl (coalesceStep addon) acc)).Nodup ∧
      (∀ k, k ∈ dictKeys (keys.foldl (coalesceStep addon) acc) →
        k ∈ dictKeys acc ∨ k = addon) ∧
      (∀ k ∈ keys, pyLower k = pyLower addon → k ≠ addon →
        ¬ k ∈ dictKeys (keys.foldl (coalesceStep addon) acc)) ∧
      (∀ e ∈ keys.foldl (coalesceStep addon) acc,
        e ∈ acc ∨ (e.1 = addon ∧ ∃ k', (k', e.2) ∈ acc ∧ pyLower k' = pyLower addon)) := by
  induction keys with
  | nil =>
    intro acc hn
    exact ⟨hn, fun k hk => Or.inl hk, by simp, fun e he => Or.inl he⟩
  | cons key rest ih =>
    intro acc hn
    rw [List.foldl_cons]
    by_cases hc : pyLower key = pyLower addon ∧ key ≠ addon
    · cases hget : dictGet acc key with
      | none =>
        have hstep : coalesceStep addon acc key = acc := by
          simp [coalesceStep, hc, hget]
        rw [hstep]
        obtain ⟨n', s', t', p'⟩ := ih acc hn
        refine ⟨n', s', ?_, p'⟩
        intro k hk hl hne
        rcases List.mem_cons.mp hk with rfl | hk'
        · intro hmem
          rcases s' k hmem with h' | h'
          · exact absurd ((mem_keys_iff_isSome acc k).mp h') (by simp [hget])
          · exact hne h'
        · exact t' k hk' hl hne
      | some v =>
        have hstep : coalesceStep addon acc key =
            dictInsert (dictPop acc key) addon v := by
          simp [coalesceStep, hc, hget]
        rw [hstep]
        have hn' : (dictKeys (dictInsert (dictPop acc key) addon v)).Nodup :=
          nodup_keys_dictInsert _ _ (nodup_keys_dictPop _ hn)
        obtain ⟨n', s', t', p'⟩ := ih _ hn'
        refine ⟨n', ?_, ?_, ?_⟩
        · intro k hk
          rcases s' k hk with h' | h'
          · rcases (mem_keys_dictInsert _ _ _ _).mp h' with h'' | h''
            · exact Or.inl (mem_keys_dictPop h'')
            · exact Or.inr h''
          · exact Or.inr h'
        · intro k hk hl hne
          rcases List.mem_cons.mp hk with rfl | hk'
          · intro hmem
            rcases s' k hmem with h' | h'
            · rcases (mem_keys_dictInsert _ _ _ _).mp h' with h'' | h''
              · exact not_mem_keys_dictPop_self hn h''
              · exact hne h''
            · exact hne h'
          · exact t' k hk' hl hne
        · intro e he
          rcases p' e he with h' | ⟨h1, k', hk', hl'⟩
          · rcases mem_dictInsert h' with h'' | h''
            · exact Or.inl (mem_dictPop h'')
            · exact Or.inr ⟨by rw [h''], key,
                by rw [show e.2 = v from by rw [h'']]; exact dictGet_some_mem hget, hc.1⟩
          · rcases mem_dictInsert hk' with h'' | h''
            · exact Or.inr ⟨h1, k', mem_dictPop h'', hl'⟩
            · refine Or.inr ⟨h1, key, ?_, hc.1⟩
              have : e.2 = v := congrArg Prod.snd h''
              rw [this]
              exact dictGet_some_mem hget
      -- end some
    · have hstep : coalesceStep addon acc key = acc := by
        simp only [coalesceStep, if_neg hc]
      rw [hstep]
      obtain ⟨n', s', t', p'⟩ := ih acc hn
      refine ⟨n', s', ?_, p'⟩
      intro k hk hl hne
      rcases List.mem_cons.mp hk with rfl | hk'
      · exact absurd ⟨hl, hne⟩ hc
      · exact t' k hk' hl hne

/-- Specification of `coalesceCase`: starting from a dict with
duplicate-free keys, the result has duplicate-free keys, only original keys
plus possibly the canonical key, no case-variant of the canonical key, and
every entry's profile originates from the dict (the canonical entry from
some case-variant entry). -/
theorem coalesceCase_spec (m : AddonMap) (addon : String)
    (hn : (dictKeys m).Nodup) :
    (dictKeys (coalesceCase m addon)).Nodup ∧
    (∀ k, k ∈ dictKeys (coalesceCase m addon) → k ∈ dictKeys m ∨ k = addon) ∧
    (∀ k ∈ dictKeys m, pyLower k = pyLower addon → k ≠ addon →
      ¬ k ∈ dictKeys (coalesceCase m addon)) ∧
    (∀ e ∈ coalesceCase m addon,
      e ∈ m ∨ (e.1 = addon ∧ ∃ k', (k', e.2) ∈ m ∧ pyLower k' = pyLower addon)) :=
  coalesce_foldl_spec addon (dictKeys m) m hn

/-! ### Frame lemmas for the reconciliation loop -/

/-- A successful token step never touches the instance fields other than the
ingress profile, nor the stored addon profiles or the aliasing flag. -/
theorem processAddonArg_ok_frame (rg n : String) (args : UpdateArgs) (e : Bool)
    (s s' : MCState) (t : String)
    (h : processAddonArg rg n args e s t = .ok s') :
    s'.cluster.location = s.cluster.location ∧
    s'.cluster.kubernetes_version = s.cluster.kubernetes_version ∧
    s'.cluster.service_principal_profile = s.cluster.service_principal_profile ∧
    s'.cluster.addon_profiles = s.cluster.addon_profiles ∧
    s'.shared = s.shared := by
  simp only [processAddonArg] at h
  split at h
  · obtain rfl := Except.ok.inj h
    exact ⟨rfl, rfl, rfl, rfl, rfl⟩
  · split at h
    · exact Except.noConfusion h
    · split at h
      · exact Except.noConfusion h
      · obtain rfl := Except.ok.inj h
        exact ⟨rfl, rfl, rfl, rfl, rfl⟩

theorem foldlM_tokens_frame (rg n : String) (args : UpdateArgs) (e : Bool)
    (toks : List String) :
    ∀ (s s' : MCState),
      List.foldlM (processAddonArg rg n args e) s toks = .ok s' →
      s'.cluster.location = s.cluster.location ∧
      s'.cluster.kubernetes_version = s.cluster.kubernetes_version ∧
      s'.cluster.service_principal_profile = s.cluster.service_principal_profile ∧
      s'.shared = s.shared := by
  induction toks with
  | nil =>
    intro s s' h
    obtain rfl : s = s' := Except.ok.inj h
    exact ⟨rfl, rfl, rfl, rfl⟩
  | cons a l ih =>
    intro s s' h
    rw [List.foldlM_cons] at h
    cases ha : processAddonArg rg n args e s a with
    | error err =>
      rw [ha] at h
      exact Except.noConfusion h
    | ok s₁ =>
      rw [ha] at h
      have h' : List.foldlM (processAddonArg rg n args e) s₁ l = .ok s' := h
      obtain ⟨l1, l2, l3, _, l5⟩ := processAddonArg_ok_frame rg n args e s s₁ a ha
      obtain ⟨m1, m2, m3, m5⟩ := ih s₁ s' h'
      exact ⟨m1.trans l1, m2.trans l2, m3.trans l3, m5.trans l5⟩

/-- C9: On every reconciliation call that returns successfully (enable or
disable, any token list), the returned cluster object has its
`service_principal_profile` field set to `None`, and every field of the
cluster other than `addon_profiles`, `ingress_profile` and
`service_principal_profile` (in this model: `location` and
`kubernetes_version`) is unchanged from the input. -/
theorem update_addons_clears_sp_profile_and_frames (c : ManagedCluster)
    (rg n addons : String) (e : Bool) (args : UpdateArgs) (c' : ManagedCluster)
    (h : update_addons c rg n addons e args = .ok c') :
    c'.service_principal_profile = none ∧
    c'.location = c.location ∧
    c'.kubernetes_version = c.kubernetes_version := by
  simp only [update_addons] at h
  split at h
  · exact Except.noConfusion h
  · next s heq =>
    obtain rfl := Except.ok.inj h
    obtain ⟨l1, l2, _, _⟩ := foldlM_tokens_frame rg n args e (pySplit addons) _ s heq
    exact ⟨rfl, l1, l2⟩

/-- Witness for C9 at a concrete input: enabling monitoring on a cluster
with a location, a kubernetes version and a service-principal profile. -/
theorem update_addons_clears_sp_profile_and_frames_witness :
    ∃ c' : ManagedCluster,
      update_addons (ManagedCluster.mk none none (some ⟨"msi"⟩) "westus" "1.23")
        "rg" "cluster" "monitoring" true
        { workspace_resource_id := some "/sub/a/ws1" } = .ok c' ∧
      c'.service_principal_profile = none ∧
      c'.location = "westus" ∧
      c'.kubernetes_version = "1.23" := by
  have hc : update_addons (ManagedCluster.mk none none (some ⟨"msi"⟩) "westus" "1.23")
      "rg" "cluster" "monitoring" true
      { workspace_resource_id := some "/sub/a/ws1" } =
      .ok (ManagedCluster.mk
        (some [(CONST_MONITORING_ADDON_NAME, ManagedClusterAddonProfile.mk true
          (some [(CONST_MONITORING_LOG_ANALYTICS_WORKSPACE_RESOURCE_ID,
                   ConfigVal.str "/sub/a/ws1"),
                 (CONST_MONITORING_USING_AAD_MSI_AUTH, ConfigVal.bool false)]))])
        none none "westus" "1.23") := rfl
  exact ⟨_, hc, (update_addons_clears_sp_profile_and_frames _ _ _ _ _ _ _ hc).1, rfl, rfl⟩

/-- C4: Run against a remote client that raises a propagation (`CloudError`)
failure on every one of its 10 attempts, `_delete_role_assignments` (default
delay 2 seconds) performs exactly 10 attempts, sleeps `delay + delay * i`
seconds after attempt `i` — the linear schedule `[2, 4, ..., 20]`, totaling
110 seconds — and returns `False` rather than raising; a `CLIError` from the
remote call is re-raised immediately, with no further attempt and no further
sleep. -/
theorem delete_role_assignments_retry_schedule (client : Nat → RemoteOutcome) :
    ((∀ i, client i = .cloudError) →
      delete_role_assignments_run client 2 =
        ⟨10, [2, 4, 6, 8, 10, 12, 14, 16, 18, 20], .ok false⟩ ∧
      ([2, 4, 6, 8, 10, 12, 14, 16, 18, 20] : List Nat).sum = 110) ∧
    (∀ (x fuel attempts : Nat) (sleeps : List Nat) (m : String),
      client x = .cliError m →
      deleteRoleAssignmentsFrom client 2 x (fuel + 1) attempts sleeps =
        ⟨attempts + 1, sleeps, .error m⟩) := by
  constructor
  · intro h
    refine ⟨?_, by norm_num⟩
    simp [delete_role_assignments_run, deleteRoleAssignmentsFrom, h]
  · intro x fuel attempts sleeps m h
    simp [deleteRoleAssignmentsFrom, h]

/-- Witness for C4: the always-propagation-lag client exhausts the schedule
and returns `False`; a client that raises `CLIError` on the first attempt is
re-raised with one attempt and no sleep. -/
theorem delete_role_assignments_retry_schedule_witness :
    delete_role_assignments_run (fun _ => .cloudError) 2 =
      ⟨10, [2, 4, 6, 8, 10, 12, 14, 16, 18, 20], .ok false⟩ ∧
    deleteRoleAssignmentsFrom (fun _ => .cliError "forbidden") 2 0 10 0 [] =
      ⟨1, [], .error "forbidden"⟩ :=
  ⟨((delete_role_assignments_retry_schedule (fun _ => .cloudError)).1 (fun _ => rfl)).1,
   (delete_role_assignments_retry_schedule (fun _ => .cliError "forbidden")).2
     0 9 0 [] "forbidden" rfl⟩

/-- C10: splitting the empty addons argument never yields an empty token
list — it yields the single empty token, which is not in the catalog, so the
call fails with the generic `UnknownAddonError` (`CLIError` with message
`Invalid addon name: .`); there is no separate non-empty-list validation, and
a trailing or doubled comma behaves the same way through its empty token. -/
theorem update_addons_empty_token_behaviour :
    pySplit "" = [""] ∧
    update_addons {} "rg" "cluster" "" true {} =
      .error ("Invalid addon name: .", {}) ∧
    update_addons {} "rg" "cluster" "monitoring," true
      { workspace_resource_id := some "/sub/a/ws1" } =
      .error ("Invalid addon name: .", {}) ∧
    update_addons {} "rg" "cluster" "monitoring,,monitoring" true
      { workspace_resource_id := some "/sub/a/ws1" } =
      .error ("Invalid addon name: .", {}) :=
  ⟨rfl, rfl, rfl, rfl⟩

/-- Evaluation of `_update_addons` on a single catalog token: the run is the
catalog step on the initial working dict, wrapped into the final instance on
success or into the observable instance at the raise on error. -/
theorem update_addons_single_token (c : ManagedCluster) (rg n tok base : String)
    (e : Bool) (args : UpdateArgs)
    (hsplit : pySplit tok = [tok]) (hweb : ¬ tok = "web_application_routing")
    (hlk : dictGet ADDONS tok = some base) :
    update_addons c rg n tok e args =
      match catalogAddonStep rg n args e (initialWorking c) base with
      | .ok w =>
        .ok { c with
              addon_profiles := some w,
              service_principal_profile := none }
      | .error (msg, w) =>
        .error (msg, observe { cluster := c, working := w, shared := initialShared c }) := by
  simp only [update_addons]
  rw [hsplit]
  cases hcs : catalogAddonStep rg n args e (initialWorking c) base with
  | ok w =>
    have hfold : List.foldlM (processAddonArg rg n args e)
        { cluster := c, working := initialWorking c, shared := initialShared c } [tok] =
        .ok { cluster := c, working := w, shared := initialShared c } := by
      simp [List.foldlM_cons, processAddonArg, hweb, hlk, hcs]
    rw [hfold]
  | error ew =>
    obtain ⟨msg, w⟩ := ew
    have hfold : List.foldlM (processAddonArg rg n args e)
        { cluster := c, working := initialWorking c, shared := initialShared c } [tok] =
        .error (msg, { cluster := c, working := w, shared := initialShared c }) := by
      simp [List.foldlM_cons, processAddonArg, hweb, hlk, hcs]
    rw [hfold]

/-- C2 counterexample: at the claim's own scenario — empty profile map,
single token "monitoring", enable, caller-supplied workspace id, MSI flag at
its default — the MSI-auth config key holds the Python boolean `False`, not
the literal string `"false"` the claim asserts. -/
theorem monitoring_msi_auth_counterexample :
    update_addons {} "rg" "cluster" "monitoring" true
      { workspace_resource_id := some "/sub/a/ws1" } =
      .ok (ManagedCluster.mk
        (some [(CONST_MONITORING_ADDON_NAME, ManagedClusterAddonProfile.mk true
          (some [(CONST_MONITORING_LOG_ANALYTICS_WORKSPACE_RESOURCE_ID,
                   ConfigVal.str "/sub/a/ws1"),
                 (CONST_MONITORING_USING_AAD_MSI_AUTH, ConfigVal.bool false)]))])
        none none "" "") ∧
    dictGet [(CONST_MONITORING_LOG_ANALYTICS_WORKSPACE_RESOURCE_ID,
        ConfigVal.str "/sub/a/ws1"),
      (CONST_MONITORING_USING_AAD_MSI_AUTH, ConfigVal.bool false)]
      CONST_MONITORING_USING_AAD_MSI_AUTH = some (ConfigVal.bool false) ∧
    ConfigVal.bool false ≠ ConfigVal.str "false" :=
  ⟨rfl, rfl, by decide⟩

/-- C2 (amended): reconciling an empty (or absent) profile map with the
single token "monitoring", enable, a caller-supplied non-empty workspace id
and the MSI flag left at its default yields exactly one profile entry; it is
enabled, its config maps the log-analytics-workspace key to the sanitized
supplied workspace id, and maps the MSI-auth key to the Python boolean
`False` (not the string `"false"`). -/
theorem monitoring_enable_fresh_profile (c : ManagedCluster) (rg n ws : String)
    (args : UpdateArgs)
    (hprof : c.addon_profiles = none ∨ c.addon_profiles = some [])
    (hws : args.workspace_resource_id = some ws) (hw : ws.data.isEmpty = false)
    (hmsi : args.enable_msi_auth_for_monitoring = false) :
    update_addons c rg n "monitoring" true args =
      .ok { c with
        addon_profiles := some [(CONST_MONITORING_ADDON_NAME,
          ManagedClusterAddonProfile.mk true
            (some [(CONST_MONITORING_LOG_ANALYTICS_WORKSPACE_RESOURCE_ID,
                     ConfigVal.str (args.sanitize ws)),
                   (CONST_MONITORING_USING_AAD_MSI_AUTH, ConfigVal.bool false)]))],
        service_principal_profile := none } := by
  have hwork : initialWorking c = [] := by
    rcases hprof with h | h <;> simp [initialWorking, h]
  have hstep : catalogAddonStep rg n args true [] CONST_MONITORING_ADDON_NAME =
      .ok [(CONST_MONITORING_ADDON_NAME, ManagedClusterAddonProfile.mk true
        (some [(CONST_MONITORING_LOG_ANALYTICS_WORKSPACE_RESOURCE_ID,
                 ConfigVal.str (args.sanitize ws)),
               (CONST_MONITORING_USING_AAD_MSI_AUTH, ConfigVal.bool false)]))] := by
    simp [catalogAddonStep, coalesceCase, dictKeys, dictGet, pyStrFalsy, hws, hw, hmsi,
      dictInsert, dictModify, CONST_MONITORING_ADDON_NAME, CONST_VIRTUAL_NODE_ADDON_NAME,
      CONST_MONITORING_LOG_ANALYTICS_WORKSPACE_RESOURCE_ID, CONST_MONITORING_USING_AAD_MSI_AUTH]
  rw [update_addons_single_token c rg n "monitoring" CONST_MONITORING_ADDON_NAME true args
    rfl (by decide) rfl, hwork, hstep]

/-- Witness for C2 (amended) at a concrete input. -/
theorem monitoring_enable_fresh_profile_witness :
    update_addons (ManagedCluster.mk (some []) none none "" "") "rg" "n" "monitoring" true
      { workspace_resource_id := some "/sub/b/ws2" } =
      .ok { ManagedCluster.mk (some []) none none "" "" with
        addon_profiles := some [(CONST_MONITORING_ADDON_NAME,
          ManagedClusterAddonProfile.mk true
            (some [(CONST_MONITORING_LOG_ANALYTICS_WORKSPACE_RESOURCE_ID,
                     ConfigVal.str (UpdateArgs.sanitize
                       { workspace_resource_id := some "/sub/b/ws2" } "/sub/b/ws2")),
                   (CONST_MONITORING_USING_AAD_MSI_AUTH, ConfigVal.bool false)]))],
        service_principal_profile := none } :=
  monitoring_enable_fresh_profile (ManagedCluster.mk (some []) none none "" "")
    "rg" "n" "/sub/b/ws2" { workspace_resource_id := some "/sub/b/ws2" }
    (Or.inr rfl) rfl rfl rfl

/-- A successfully processed token is always a valid one: either the
web-app-routing literal or a key of the catalog. -/
theorem processAddonArg_ok_valid (rg n : String) (args : UpdateArgs) (e : Bool)
    (s s' : MCState) (t : String)
    (h : processAddonArg rg n args e s t = .ok s') : validAddonArg t = true := by
  by_cases hweb : t = "web_application_routing"
  · simp [validAddonArg, hweb]
  · cases hlk : dictGet ADDONS t with
    | none => simp [processAddonArg, hweb, hlk] at h
    | some base => simp [validAddonArg, hweb, hlk]

theorem foldlM_tokens_ok_valid (rg n : String) (args : UpdateArgs) (e : Bool)
    (toks : List String) :
    ∀ s s', List.foldlM (processAddonArg rg n args e) s toks = .ok s' →
      ∀ t ∈ toks, validAddonArg t = true := by
  induction toks with
  | nil =>
    intro s s' _ t ht
    simp at ht
  | cons a l ih =>
    intro s s' h t ht
    rw [List.foldlM_cons] at h
    cases ha : processAddonArg rg n args e s a with
    | error err =>
      rw [ha] at h
      exact Except.noConfusion h
    | ok s₁ =>
      rw [ha] at h
      rcases List.mem_cons.mp ht with rfl | ht'
      · exact processAddonArg_ok_valid _ _ _ _ _ _ _ ha
      · exact ih s₁ s' h t ht'

/-- The state at loop entry observes back to the unmodified instance. -/
theorem observe_initial (c : ManagedCluster) :
    observe { cluster := c, working := initialWorking c, shared := initialShared c } = c := by
  cases hap : c.addon_profiles with
  | none => simp [observe, initialShared, hap]
  | some m =>
    by_cases hm : m.isEmpty
    · simp [observe, initialShared, hap, hm]
    · simp [observe, initialWorking, initialShared, hap, hm]
      cases c
      simp_all

/-- C1 counterexample: with the addons argument
`web_application_routing,bogus` the call does fail with `UnknownAddonError`
naming `bogus`, but the cluster is not left unchanged — the ingress profile
was already mutated by the preceding valid token; and with
`virtual-node,bogus` (no subnet name) the failure is a different `CLIError`
raised by the preceding valid token, not the `UnknownAddonError` for
`bogus`. -/
theorem update_addons_unknown_addon_counterexample :
    update_addons {} "rg" "cluster" "web_application_routing,bogus" true {} =
      .error ("Invalid addon name: bogus.",
        ManagedCluster.mk none
          (some { web_app_routing := some { enabled := some true } }) none "" "") ∧
    (ManagedCluster.mk none
      (some { web_app_routing := some { enabled := some true } }) none "" "").ingress_profile ≠
      ({} : ManagedCluster).ingress_profile ∧
    update_addons {} "rg" "cluster" "virtual-node,bogus" true {} =
      .error ("The aci-connector addon requires setting a subnet name.", {}) :=
  ⟨rfl, by decide, rfl⟩

/-- C1 (amended): when the comma-separated addons argument contains a token
that is neither `web_application_routing` nor a catalog key, the call never
returns successfully; when the first such invalid token is the very first
token of the list, the call fails with `UnknownAddonError` naming it and the
cluster is unchanged.  Valid tokens preceding an invalid one are processed
first: they may fail with their own `CLIError`, and mutations they performed
(ingress-profile updates and, when the incoming profile map was non-empty
and hence aliased, profile-map updates) remain in place. -/
theorem update_addons_unknown_addon (c : ManagedCluster) (rg n addons : String)
    (e : Bool) (args : UpdateArgs) :
    (∀ c', update_addons c rg n addons e args = .ok c' →
      ∀ t ∈ pySplit addons, validAddonArg t = true) ∧
    (∀ t rest, pySplit addons = t :: rest → validAddonArg t = false →
      update_addons c rg n addons e args =
        .error ("Invalid addon name: " ++ t ++ ".", c)) := by
  constructor
  · intro c' h t ht
    simp only [update_addons] at h
    split at h
    · exact Except.noConfusion h
    · next s hf => exact foldlM_tokens_ok_valid rg n args e (pySplit addons) _ s hf t ht
  · intro t rest hsplit hinv
    have hweb : ¬ t = "web_application_routing" := by
      intro hh
      rw [hh] at hinv
      simp [validAddonArg] at hinv
    have hlk : dictGet ADDONS t = none := by
      simp only [validAddonArg, Bool.or_eq_false_iff, decide_eq_false_iff_not] at hinv
      exact Option.not_isSome_iff_eq_none.mp (by simp [hinv.2])
    simp only [update_addons]
    rw [hsplit, List.foldlM_cons]
    have hp : processAddonArg rg n args e
        { cluster := c, working := initialWorking c, shared := initialShared c } t =
        .error ("Invalid addon name: " ++ t ++ ".",
          { cluster := c, working := initialWorking c, shared := initialShared c }) := by
      simp [processAddonArg, hweb, hlk]
    rw [hp]
    show Except.error ("Invalid addon name: " ++ t ++ ".",
        observe { cluster := c, working := initialWorking c, shared := initialShared c }) = _
    rw [observe_initial]

/-- Witness for C1 (amended): a lone invalid token fails with the
`UnknownAddonError` naming it and leaves the cluster unchanged. -/
theorem update_addons_unknown_addon_witness :
    update_addons {} "rg" "cluster" "bogus" true {} =
      .error ("Invalid addon name: bogus.", {}) :=
  (update_addons_unknown_addon {} "rg" "cluster" "bogus" true {}).2 "bogus" [] rfl
    (by decide)

/-- C8: In `aks_enable_addons`, whenever after reconciliation the monitoring
addon profile is enabled, or the ingress-appgw addon profile is enabled, or
a virtual-node (`aciConnectorLinux`) profile entry exists, the
create-or-update submission blocks synchronously on the long-running
operation (the materialized result is what the subsequent role assignments
receive) — for every value of the `no_wait` flag; in all other cases
submission goes through `sdk_no_wait` with the given `no_wait`. -/
theorem aks_enable_addons_submission_decision (c : ManagedCluster)
    (rg n addons : String) (args : UpdateArgs) (inst' : ManagedCluster)
    (no_wait : Bool)
    (h : update_addons c rg n addons true args = .ok inst') :
    (aks_enable_addons_submit inst' no_wait = .blockingLRO ↔
      (monitoringEnabled inst' || ingressAppgwEnabled inst' ||
        virtualNodePresent inst') = true) ∧
    ((monitoringEnabled inst' || ingressAppgwEnabled inst' ||
        virtualNodePresent inst') = false →
      aks_enable_addons_submit inst' no_wait = .sdkNoWait no_wait) := by
  by_cases hc : (monitoringEnabled inst' || ingressAppgwEnabled inst' ||
      virtualNodePresent inst') = true
  · simp [aks_enable_addons_submit, hc]
  · simp only [Bool.not_eq_true] at hc
    simp [aks_enable_addons_submit, hc]

/-- Witness for C8: after enabling monitoring, submission blocks on the
long-running operation even with `no_wait = true`. -/
theorem aks_enable_addons_submission_decision_witness :
    aks_enable_addons_submit (ManagedCluster.mk
      (some [(CONST_MONITORING_ADDON_NAME, ManagedClusterAddonProfile.mk true
        (some [(CONST_MONITORING_LOG_ANALYTICS_WORKSPACE_RESOURCE_ID,
                 ConfigVal.str "/sub/a/ws1"),
               (CONST_MONITORING_USING_AAD_MSI_AUTH, ConfigVal.bool false)]))])
      none none "" "") true = SubmitAction.blockingLRO := by
  have hc : update_addons {} "rg" "cluster" "monitoring" true
      { workspace_resource_id := some "/sub/a/ws1" } =
      .ok (ManagedCluster.mk
        (some [(CONST_MONITORING_ADDON_NAME, ManagedClusterAddonProfile.mk true
          (some [(CONST_MONITORING_LOG_ANALYTICS_WORKSPACE_RESOURCE_ID,
                   ConfigVal.str "/sub/a/ws1"),
                 (CONST_MONITORING_USING_AAD_MSI_AUTH, ConfigVal.bool false)]))])
        none none "" "") := rfl
  exact ((aks_enable_addons_submission_decision _ _ _ _ _ _ true hc).1).mpr rfl

theorem dictModify_append_of_not_mem {α : Type} (w : List (String × α)) (k : String)
    (p : α) (f : α → α) (h : ¬ k ∈ dictKeys w) :
    dictModify (w ++ [(k, p)]) k f = w ++ [(k, f p)] := by
  induction w with
  | nil => simp [dictModify]
  | cons e t ih =>
    obtain ⟨k', v'⟩ := e
    rw [dictKeys_cons] at h
    simp only [List.mem_cons, not_or] at h
    simp [dictModify, Ne.symm h.1, ih h.2]

/-- Disabling a catalog add-on whose canonical key (and any case variant of
it) is absent from the working dict: the kube-dashboard add-on is silently
created disabled with null config, every other add-on raises
`AddonNotInstalledError`. -/
theorem catalogAddonStep_disable_absent (rg n : String) (args : UpdateArgs)
    (w : AddonMap) (base : String)
    (habs : ∀ k ∈ dictKeys w, ¬ pyLower k = pyLower (resolveAddonKey base)) :
    catalogAddonStep rg n args false w base =
      if resolveAddonKey base = CONST_KUBE_DASHBOARD_ADDON_NAME then
        .ok (w ++ [(CONST_KUBE_DASHBOARD_ADDON_NAME,
          ManagedClusterAddonProfile.mk false none)])
      else
        .error ("The addon " ++ resolveAddonKey base ++ " is not installed.", w) := by
  have hnot : ¬ resolveAddonKey base ∈ dictKeys w := fun h => habs _ h rfl
  have hco : coalesceCase w (resolveAddonKey base) = w :=
    coalesceCase_eq_self _ _ (fun k hk hl => absurd hl (habs k hk))
  have hmm : dictMem w (resolveAddonKey base) = false := by
    rw [← Bool.not_eq_true]
    intro hb
    exact hnot ((dictMem_iff_mem_keys w _).mp hb)
  by_cases hdash : resolveAddonKey base = CONST_KUBE_DASHBOARD_ADDON_NAME
  · rw [hdash] at hco hmm hnot
    rw [if_pos hdash]
    simp only [catalogAddonStep,
      show (if base = CONST_VIRTUAL_NODE_ADDON_NAME then base ++ "Linux" else base) =
        resolveAddonKey base from rfl, hdash, hco, hmm, Bool.false_eq_true, if_false,
      Bool.not_eq_true, not_false_eq_true, if_true]
    rw [dictInsert_of_not_mem _ _ _ hnot, dictModify_append_of_not_mem _ _ _ _ hnot,
      dictModify_append_of_not_mem _ _ _ _ hnot]
  · rw [if_neg hdash]
    simp only [catalogAddonStep,
      show (if base = CONST_VIRTUAL_NODE_ADDON_NAME then base ++ "Linux" else base) =
        resolveAddonKey base from rfl, hco, hmm, hdash, Bool.false_eq_true, if_false,
      Bool.not_eq_true, not_false_eq_true, if_true]

/-- `_update_addons` on a single catalog token with enable=false when the
canonical key is absent: kube-dashboard silently creates a disabled entry,
everything else raises and leaves the cluster unchanged. -/
theorem update_addons_disable_absent_general (tok base : String)
    (hcat : dictGet ADDONS tok = some base)
    (hsplit : pySplit tok = [tok]) (hweb : ¬ tok = "web_application_routing")
    (c : ManagedCluster) (rg n : String) (args : UpdateArgs)
    (habs : ∀ k ∈ dictKeys (initialWorking c),
      ¬ pyLower k = pyLower (resolveAddonKey base)) :
    update_addons c rg n tok false args =
      if resolveAddonKey base = CONST_KUBE_DASHBOARD_ADDON_NAME then
        .ok { c with
              addon_profiles := some (initialWorking c ++
                [(CONST_KUBE_DASHBOARD_ADDON_NAME,
                  ManagedClusterAddonProfile.mk false none)]),
              service_principal_profile := none }
      else
        .error ("The addon " ++ resolveAddonKey base ++ " is not installed.", c) := by
  rw [update_addons_single_token c rg n tok base false args hsplit hweb hcat,
    catalogAddonStep_disable_absent rg n args _ _ habs]
  by_cases hdash : resolveAddonKey base = CONST_KUBE_DASHBOARD_ADDON_NAME
  · rw [if_pos hdash, if_pos hdash]
  · rw [if_neg hdash, if_neg hdash]
    show Except.error ("The addon " ++ resolveAddonKey base ++ " is not installed.",
      observe { cluster := c, working := initialWorking c, shared := initialShared c }) = _
    rw [observe_initial]

/-- C6: For every catalog add-on other than kube-dashboard, reconciliation
with enable=false when no profile entry (under the canonical key or any case
variant of it) exists fails with `AddonNotInstalledError`
(`CLIError` "The addon ... is not installed.") and the cluster is unchanged;
for the kube-dashboard add-on the same call succeeds, silently creating a
disabled profile entry with null config. -/
theorem disable_not_installed (tok base : String)
    (hcat : dictGet ADDONS tok = some base)
    (c : ManagedCluster) (rg n : String) (args : UpdateArgs)
    (habs : ∀ k ∈ dictKeys (initialWorking c),
      ¬ pyLower k = pyLower (resolveAddonKey base)) :
    (¬ tok = "kube-dashboard" →
      update_addons c rg n tok false args =
        .error ("The addon " ++ resolveAddonKey base ++ " is not installed.", c)) ∧
    (tok = "kube-dashboard" →
      update_addons c rg n tok false args =
        .ok { c with
              addon_profiles := some (initialWorking c ++
                [(CONST_KUBE_DASHBOARD_ADDON_NAME,
                  ManagedClusterAddonProfile.mk false none)]),
              service_principal_profile := none }) := by
  have hmem : (tok, base) ∈ ADDONS := dictGet_some_mem hcat
  have hsplit : pySplit tok = [tok] := by
    have hall : ∀ e ∈ ADDONS, pySplit e.1 = [e.1] := by decide
    exact hall (tok, base) hmem
  have hweb : ¬ tok = "web_application_routing" := by
    have hall : ∀ e ∈ ADDONS, ¬ e.1 = "web_application_routing" := by decide
    exact hall (tok, base) hmem
  have hgen := update_addons_disable_absent_general tok base hcat hsplit hweb
    c rg n args habs
  by_cases hd : tok = "kube-dashboard"
  · have hdash : resolveAddonKey base = CONST_KUBE_DASHBOARD_ADDON_NAME := by
      have hall : ∀ e ∈ ADDONS, e.1 = "kube-dashboard" →
          resolveAddonKey e.2 = CONST_KUBE_DASHBOARD_ADDON_NAME := by decide
      exact hall (tok, base) hmem hd
    exact ⟨fun hnd => absurd hd hnd, fun _ => by rw [hgen, if_pos hdash]⟩
  · have hdash : ¬ resolveAddonKey base = CONST_KUBE_DASHBOARD_ADDON_NAME := by
      have hall : ∀ e ∈ ADDONS, ¬ e.1 = "kube-dashboard" →
          ¬ resolveAddonKey e.2 = CONST_KUBE_DASHBOARD_ADDON_NAME := by decide
      exact hall (tok, base) hmem hd
    exact ⟨fun _ => by rw [hgen, if_neg hdash], fun hdd => absurd hdd hd⟩

/-- Witness for C6: disabling never-installed monitoring raises; disabling
the never-installed dashboard silently creates a disabled entry. -/
theorem disable_not_installed_witness :
    update_addons {} "rg" "n" "monitoring" false {} =
      .error ("The addon omsagent is not installed.", {}) ∧
    update_addons {} "rg" "n" "kube-dashboard" false {} =
      .ok (ManagedCluster.mk
        (some [(CONST_KUBE_DASHBOARD_ADDON_NAME,
          ManagedClusterAddonProfile.mk false none)]) none none "" "") :=
  ⟨(disable_not_installed "monitoring" CONST_MONITORING_ADDON_NAME rfl
      {} "rg" "n" {} (by decide)).1 (by decide),
   (disable_not_installed "kube-dashboard" CONST_KUBE_DASHBOARD_ADDON_NAME rfl
      {} "rg" "n" {} (by decide)).2 rfl⟩

/-- Disabling a catalog add-on whose canonical key is present in the working
dict: uniformly for every add-on, clear the config and clear the enabled
flag, raising nothing. -/
theorem catalogAddonStep_disable_present (rg n : String) (args : UpdateArgs)
    (w : AddonMap) (base : String)
    (hco : coalesceCase w (resolveAddonKey base) = w)
    (hmm : dictMem w (resolveAddonKey base) = true) :
    catalogAddonStep rg n args false w base =
      .ok (dictModify (dictModify w (resolveAddonKey base)
        (fun p => { p with config := none })) (resolveAddonKey base)
        (fun p => { p with enabled := false })) := by
  simp only [catalogAddonStep,
    show (if base = CONST_VIRTUAL_NODE_ADDON_NAME then base ++ "Linux" else base) =
      resolveAddonKey base from rfl, hco, hmm, Bool.false_eq_true, if_false,
    not_true, if_true]

/-- C7: disabling is idempotent.  For every catalog add-on whose canonical
profile entry exists (and no case-variant key interferes), the first
enable=false call succeeds, and running reconciliation with enable=false a
second time on its result succeeds and returns exactly the same cluster —
in particular the second call does not fail with `AddonNotInstalledError`,
because the entry updated by the first call is still present. -/
theorem disable_idempotent (tok base : String)
    (hcat : dictGet ADDONS tok = some base)
    (c : ManagedCluster) (m : AddonMap) (p : ManagedClusterAddonProfile)
    (rg n : String) (args : UpdateArgs)
    (hm : c.addon_profiles = some m)
    (hget : dictGet m (resolveAddonKey base) = some p)
    (hnovar : ∀ k ∈ dictKeys m,
      pyLower k = pyLower (resolveAddonKey base) → k = resolveAddonKey base) :
    ∃ c₁, update_addons c rg n tok false args = .ok c₁ ∧
      update_addons c₁ rg n tok false args = .ok c₁ := by
  have hmem : (tok, base) ∈ ADDONS := dictGet_some_mem hcat
  have hsplit : pySplit tok = [tok] := by
    have hall : ∀ e ∈ ADDONS, pySplit e.1 = [e.1] := by decide
    exact hall (tok, base) hmem
  have hweb : ¬ tok = "web_application_routing" := by
    have hall : ∀ e ∈ ADDONS, ¬ e.1 = "web_application_routing" := by decide
    exact hall (tok, base) hmem
  have hme : m.isEmpty = false := by
    cases m with
    | nil => simp [dictGet] at hget
    | cons e t => rfl
  have hwork : initialWorking c = m := by
    simp [initialWorking, hm, hme]
  have hmm : dictMem m (resolveAddonKey base) = true := by
    rw [dictMem_eq_isSome, hget]
    rfl
  have hco : coalesceCase m (resolveAddonKey base) = m :=
    coalesceCase_eq_self _ _ hnovar
  -- the dict after the first disable
  set m₁ := dictModify (dictModify m (resolveAddonKey base)
    (fun q => { q with config := none })) (resolveAddonKey base)
    (fun q => { q with enabled := false }) with hm₁
  have hrun1 : update_addons c rg n tok false args =
      .ok { c with addon_profiles := some m₁, service_principal_profile := none } := by
    rw [update_addons_single_token c rg n tok base false args hsplit hweb hcat, hwork,
      catalogAddonStep_disable_present rg n args m base hco hmm]
  have hkeys₁ : dictKeys m₁ = dictKeys m := by
    rw [hm₁, dictKeys_dictModify, dictKeys_dictModify]
  have hget₁ : dictGet m₁ (resolveAddonKey base) =
      some (ManagedClusterAddonProfile.mk false none) := by
    rw [hm₁, dictGet_dictModify_self, dictGet_dictModify_self, hget]
    rfl
  have hme₁ : m₁.isEmpty = false := by
    cases hx : m₁ with
    | nil => rw [hx] at hget₁; simp [dictGet] at hget₁
    | cons e t => rfl
  have hwork₁ : initialWorking
      { c with
        addon_profiles := some m₁,
        service_principal_profile := none } = m₁ := by
    simp [initialWorking, hme₁]
  have hmm₁ : dictMem m₁ (resolveAddonKey base) = true := by
    rw [dictMem_eq_isSome, hget₁]
    rfl
  have hco₁ : coalesceCase m₁ (resolveAddonKey base) = m₁ :=
    coalesceCase_eq_self _ _ (fun k hk => hnovar k (hkeys₁ ▸ hk))
  have hfix1 : dictModify m₁ (resolveAddonKey base)
      (fun q => { q with config := none }) = m₁ :=
    dictModify_eq_self _ _ _ (fun v hv => by
      rw [hget₁] at hv
      obtain rfl := Option.some.inj hv
      rfl)
  have hfix : dictModify (dictModify m₁ (resolveAddonKey base)
      (fun q => { q with config := none })) (resolveAddonKey base)
      (fun q => { q with enabled := false }) = m₁ := by
    rw [hfix1]
    exact dictModify_eq_self _ _ _ (fun v hv => by
      rw [hget₁] at hv
      obtain rfl := Option.some.inj hv
      rfl)
  refine ⟨{ c with addon_profiles := some m₁, service_principal_profile := none },
    hrun1, ?_⟩
  rw [update_addons_single_token _ rg n tok base false args hsplit hweb hcat, hwork₁,
    catalogAddonStep_disable_present rg n args m₁ base hco₁ hmm₁, hfix]

/-- Witness for C7: disabling confcom twice, starting from an installed
enabled entry, converges after the first call. -/
theorem disable_idempotent_witness :
    ∃ c₁, update_addons (ManagedCluster.mk
        (some [(CONST_CONFCOM_ADDON_NAME, ManagedClusterAddonProfile.mk true
          (some [(CONST_ACC_SGX_QUOTE_HELPER_ENABLED, ConfigVal.str "false")]))])
        none none "" "")
        "rg" "n" "confcom" false {} = .ok c₁ ∧
      update_addons c₁ "rg" "n" "confcom" false {} = .ok c₁ :=
  disable_idempotent "confcom" CONST_CONFCOM_ADDON_NAME rfl
    (ManagedCluster.mk
      (some [(CONST_CONFCOM_ADDON_NAME, ManagedClusterAddonProfile.mk true
        (some [(CONST_ACC_SGX_QUOTE_HELPER_ENABLED, ConfigVal.str "false")]))])
      none none "" "")
    [(CONST_CONFCOM_ADDON_NAME, ManagedClusterAddonProfile.mk true
      (some [(CONST_ACC_SGX_QUOTE_HELPER_ENABLED, ConfigVal.str "false")]))]
    (ManagedClusterAddonProfile.mk true
      (some [(CONST_ACC_SGX_QUOTE_HELPER_ENABLED, ConfigVal.str "false")]))
    "rg" "n" {} rfl rfl (by decide)

theorem update_addons_single_token_error (c : ManagedCluster) (rg n tok base : String)
    (e : Bool) (args : UpdateArgs)
    (hsplit : pySplit tok = [tok]) (hweb : ¬ tok = "web_application_routing")
    (hlk : dictGet ADDONS tok = some base) (msg : String) (w : AddonMap)
    (hstep : catalogAddonStep rg n args e (initialWorking c) base = .error (msg, w)) :
    update_addons c rg n tok e args =
      .error (msg, observe { cluster := c, working := w, shared := initialShared c }) := by
  rw [update_addons_single_token c rg n tok base e args hsplit hweb hlk, hstep]

theorem update_addons_single_token_ok (c : ManagedCluster) (rg n tok base : String)
    (e : Bool) (args : UpdateArgs)
    (hsplit : pySplit tok = [tok]) (hweb : ¬ tok = "web_application_routing")
    (hlk : dictGet ADDONS tok = some base) (w : AddonMap)
    (hstep : catalogAddonStep rg n args e (initialWorking c) base = .ok w) :
    update_addons c rg n tok e args =
      .ok { c with
            addon_profiles := some w,
            service_principal_profile := none } := by
  rw [update_addons_single_token c rg n tok base e args hsplit hweb hlk, hstep]

/-- Enabling an add-on with no dedicated configuration branch (canonical key
none of the six checked constants) never raises — in particular there is no
already-enabled check. -/
theorem catalogAddonStep_enable_unchecked (rg n : String) (args : UpdateArgs)
    (w : AddonMap) (base : String)
    (h1 : ¬ resolveAddonKey base = CONST_MONITORING_ADDON_NAME)
    (h2 : ¬ resolveAddonKey base = CONST_VIRTUAL_NODE_ADDON_NAME ++ "Linux")
    (h3 : ¬ resolveAddonKey base = CONST_INGRESS_APPGW_ADDON_NAME)
    (h4 : ¬ resolveAddonKey base = CONST_OPEN_SERVICE_MESH_ADDON_NAME)
    (h5 : ¬ resolveAddonKey base = CONST_CONFCOM_ADDON_NAME)
    (h6 : ¬ resolveAddonKey base = CONST_AZURE_KEYVAULT_SECRETS_PROVIDER_ADDON_NAME) :
    catalogAddonStep rg n args true w base =
      .ok (dictModify (dictInsert (coalesceCase w (resolveAddonKey base))
        (resolveAddonKey base)
        ((dictGet (coalesceCase w (resolveAddonKey base)) (resolveAddonKey base)).getD
          { enabled := false })) (resolveAddonKey base)
        (fun p => { p with enabled := true })) := by
  simp only [catalogAddonStep,
    show (if base = CONST_VIRTUAL_NODE_ADDON_NAME then base ++ "Linux" else base) =
      resolveAddonKey base from rfl, h1, h2, h3, h4, h5, h6, if_false, if_true]

/-- C3 counterexample: `http_application_routing` is a catalog add-on, its
profile entry exists enabled, yet enabling it again succeeds (returning the
cluster with the entry re-enabled) instead of failing with
`AddonAlreadyEnabledError` — the uniform claim fails. -/
theorem enable_already_enabled_counterexample :
    update_addons (ManagedCluster.mk
      (some [(CONST_HTTP_APPLICATION_ROUTING_ADDON_NAME,
        ManagedClusterAddonProfile.mk true none)]) none none "" "")
      "rg" "n" "http_application_routing" true {} =
      .ok (ManagedCluster.mk
        (some [(CONST_HTTP_APPLICATION_ROUTING_ADDON_NAME,
          ManagedClusterAddonProfile.mk true none)]) none none "" "") := rfl

/-- C3 (amended): enabling an already-enabled add-on fails with
`AddonAlreadyEnabledError` (a `CLIError` naming the disable command to run
first) exactly for the six add-ons with a dedicated configuration branch —
monitoring, virtual-node, ingress-appgw, open-service-mesh, confcom and
azure-keyvault-secrets-provider — leaving the cluster unchanged; for the
remaining catalog add-ons (http_application_routing, azure-policy,
kube-dashboard) the call succeeds with no already-enabled check. -/
theorem enable_already_enabled (tok base : String)
    (hcat : dictGet ADDONS tok = some base)
    (c : ManagedCluster) (m : AddonMap) (p : ManagedClusterAddonProfile)
    (rg n : String) (args : UpdateArgs)
    (hm : c.addon_profiles = some m)
    (hget : dictGet m (resolveAddonKey base) = some p)
    (hp : p.enabled = true)
    (hnovar : ∀ k ∈ dictKeys m,
      pyLower k = pyLower (resolveAddonKey base) → k = resolveAddonKey base) :
    (tok = "monitoring" → update_addons c rg n tok true args =
      .error ("The monitoring addon is already enabled for this managed cluster.\n" ++
        "To change monitoring configuration, run \x22az aks disable-addons -a monitoring\x22" ++
        "before enabling it again.", c)) ∧
    (tok = "virtual-node" → update_addons c rg n tok true args =
      .error ("The virtual-node addon is already enabled for this managed cluster.\n" ++
        "To change virtual-node configuration, run " ++
        "\x22az aks disable-addons -a virtual-node -g {resource_group_name}\x22 " ++
        "before enabling it again.", c)) ∧
    (tok = "ingress-appgw" → update_addons c rg n tok true args =
      .error ("The ingress-appgw addon is already enabled for this managed cluster.\n" ++
        "To change ingress-appgw configuration, run " ++
        "\x22az aks disable-addons -a ingress-appgw -n " ++ n ++ " -g " ++
        rg ++ "\x22 before enabling it again.", c)) ∧
    (tok = "open-service-mesh" → update_addons c rg n tok true args =
      .error ("The open-service-mesh addon is already enabled for this managed cluster.\n" ++
        "To change open-service-mesh configuration, run " ++
        "\x22az aks disable-addons -a open-service-mesh -n " ++ n ++ " -g " ++
        rg ++ "\x22 before enabling it again.", c)) ∧
    (tok = "confcom" → update_addons c rg n tok true args =
      .error ("The confcom addon is already enabled for this managed cluster.\n" ++
        "To change confcom configuration, run " ++
        "\x22az aks disable-addons -a confcom -n " ++ n ++ " -g " ++
        rg ++ "\x22 before enabling it again.", c)) ∧
    (tok = "azure-keyvault-secrets-provider" → update_addons c rg n tok true args =
      .error ("The azure-keyvault-secrets-provider addon is already enabled for this managed cluster.\n" ++
        "To change azure-keyvault-secrets-provider configuration, run " ++
        "\x22az aks disable-addons -a azure-keyvault-secrets-provider -n " ++ n ++
        " -g " ++ rg ++ "\x22 before enabling it again.", c)) ∧
    (tok = "http_application_routing" ∨ tok = "azure-policy" ∨ tok = "kube-dashboard" →
      ∃ c', update_addons c rg n tok true args = .ok c') := by
  have hmem : (tok, base) ∈ ADDONS := dictGet_some_mem hcat
  have hsplit : pySplit tok = [tok] := by
    have hall : ∀ e ∈ ADDONS, pySplit e.1 = [e.1] := by decide
    exact hall (tok, base) hmem
  have hweb : ¬ tok = "web_application_routing" := by
    have hall : ∀ e ∈ ADDONS, ¬ e.1 = "web_application_routing" := by decide
    exact hall (tok, base) hmem
  have hme : m.isEmpty = false := by
    cases m with
    | nil => simp [dictGet] at hget
    | cons e t => rfl
  have hwork : initialWorking c = m := by
    simp [initialWorking, hm, hme]
  have hco : coalesceCase m (resolveAddonKey base) = m :=
    coalesceCase_eq_self _ _ hnovar
  refine ⟨?_, ?_, ?_, ?_, ?_, ?_, ?_⟩
  case _ =>
    intro htok
    subst htok
    have h2 : dictGet ADDONS "monitoring" = some CONST_MONITORING_ADDON_NAME := rfl
    rw [hcat] at h2
    obtain rfl := Option.some.inj h2
    rw [show resolveAddonKey CONST_MONITORING_ADDON_NAME = CONST_MONITORING_ADDON_NAME
      from rfl] at hco hget
    have hstep : catalogAddonStep rg n args true (initialWorking c)
        CONST_MONITORING_ADDON_NAME =
        .error ("The monitoring addon is already enabled for this managed cluster.\n" ++
          "To change monitoring configuration, run \x22az aks disable-addons -a monitoring\x22" ++
          "before enabling it again.", initialWorking c) := by
      rw [hwork]
      simp +decide [catalogAddonStep, hco, hget, hp]
    rw [update_addons_single_token_error c rg n "monitoring" CONST_MONITORING_ADDON_NAME
      true args hsplit hweb hcat _ _ hstep, observe_initial]
  case _ =>
    intro htok
    subst htok
    have h2 : dictGet ADDONS "virtual-node" = some CONST_VIRTUAL_NODE_ADDON_NAME := rfl
    rw [hcat] at h2
    obtain rfl := Option.some.inj h2
    rw [show resolveAddonKey CONST_VIRTUAL_NODE_ADDON_NAME =
      CONST_VIRTUAL_NODE_ADDON_NAME ++ "Linux" from rfl] at hco hget
    have hstep : catalogAddonStep rg n args true (initialWorking c)
        CONST_VIRTUAL_NODE_ADDON_NAME =
        .error ("The virtual-node addon is already enabled for this managed cluster.\n" ++
          "To change virtual-node configuration, run " ++
          "\x22az aks disable-addons -a virtual-node -g {resource_group_name}\x22 " ++
          "before enabling it again.", initialWorking c) := by
      rw [hwork]
      simp +decide [catalogAddonStep, hco, hget, hp]
    rw [update_addons_single_token_error c rg n "virtual-node" CONST_VIRTUAL_NODE_ADDON_NAME
      true args hsplit hweb hcat _ _ hstep, observe_initial]
  case _ =>
    intro htok
    subst htok
    have h2 : dictGet ADDONS "ingress-appgw" = some CONST_INGRESS_APPGW_ADDON_NAME := rfl
    rw [hcat] at h2
    obtain rfl := Option.some.inj h2
    rw [show resolveAddonKey CONST_INGRESS_APPGW_ADDON_NAME = CONST_INGRESS_APPGW_ADDON_NAME
      from rfl] at hco hget
    have hstep : catalogAddonStep rg n args true (initialWorking c)
        CONST_INGRESS_APPGW_ADDON_NAME =
        .error ("The ingress-appgw addon is already enabled for this managed cluster.\n" ++
          "To change ingress-appgw configuration, run " ++
          "\x22az aks disable-addons -a ingress-appgw -n " ++ n ++ " -g " ++
          rg ++ "\x22 before enabling it again.", initialWorking c) := by
      rw [hwork]
      simp +decide [catalogAddonStep, hco, hget, hp]
    rw [update_addons_single_token_error c rg n "ingress-appgw" CONST_INGRESS_APPGW_ADDON_NAME
      true args hsplit hweb hcat _ _ hstep, observe_initial]
  case _ =>
    intro htok
    subst htok
    have h2 : dictGet ADDONS "open-service-mesh" = some CONST_OPEN_SERVICE_MESH_ADDON_NAME := rfl
    rw [hcat] at h2
    obtain rfl := Option.some.inj h2
    rw [show resolveAddonKey CONST_OPEN_SERVICE_MESH_ADDON_NAME =
      CONST_OPEN_SERVICE_MESH_ADDON_NAME from rfl] at hco hget
    have hstep : catalogAddonStep rg n args true (initialWorking c)
        CONST_OPEN_SERVICE_MESH_ADDON_NAME =
        .error ("The open-service-mesh addon is already enabled for this managed cluster.\n" ++
          "To change open-service-mesh configuration, run " ++
          "\x22az aks disable-addons -a open-service-mesh -n " ++ n ++ " -g " ++
          rg ++ "\x22 before enabling it again.", initialWorking c) := by
      rw [hwork]
      simp +decide [catalogAddonStep, hco, hget, hp]
    rw [update_addons_single_token_error c rg n "open-service-mesh"
      CONST_OPEN_SERVICE_MESH_ADDON_NAME true args hsplit hweb hcat _ _ hstep,
      observe_initial]
  case _ =>
    intro htok
    subst htok
    have h2 : dictGet ADDONS "confcom" = some CONST_CONFCOM_ADDON_NAME := rfl
    rw [hcat] at h2
    obtain rfl := Option.some.inj h2
    rw [show resolveAddonKey CONST_CONFCOM_ADDON_NAME = CONST_CONFCOM_ADDON_NAME
      from rfl] at hco hget
    have hstep : catalogAddonStep rg n args true (initialWorking c) CONST_CONFCOM_ADDON_NAME =
        .error ("The confcom addon is already enabled for this managed cluster.\n" ++
          "To change confcom configuration, run " ++
          "\x22az aks disable-addons -a confcom -n " ++ n ++ " -g " ++
          rg ++ "\x22 before enabling it again.", initialWorking c) := by
      rw [hwork]
      simp +decide [catalogAddonStep, hco, hget, hp]
    rw [update_addons_single_token_error c rg n "confcom" CONST_CONFCOM_ADDON_NAME
      true args hsplit hweb hcat _ _ hstep, observe_initial]
  case _ =>
    intro htok
    subst htok
    have h2 : dictGet ADDONS "azure-keyvault-secrets-provider" =
        some CONST_AZURE_KEYVAULT_SECRETS_PROVIDER_ADDON_NAME := rfl
    rw [hcat] at h2
    obtain rfl := Option.some.inj h2
    rw [show resolveAddonKey CONST_AZURE_KEYVAULT_SECRETS_PROVIDER_ADDON_NAME =
      CONST_AZURE_KEYVAULT_SECRETS_PROVIDER_ADDON_NAME from rfl] at hco hget
    have hstep : catalogAddonStep rg n args true (initialWorking c)
        CONST_AZURE_KEYVAULT_SECRETS_PROVIDER_ADDON_NAME =
        .error ("The azure-keyvault-secrets-provider addon is already enabled for this managed cluster.\n" ++
          "To change azure-keyvault-secrets-provider configuration, run " ++
          "\x22az aks disable-addons -a azure-keyvault-secrets-provider -n " ++ n ++
          " -g " ++ rg ++ "\x22 before enabling it again.", initialWorking c) := by
      rw [hwork]
      simp +decide [catalogAddonStep, hco, hget, hp]
    rw [update_addons_single_token_error c rg n "azure-keyvault-secrets-provider"
      CONST_AZURE_KEYVAULT_SECRETS_PROVIDER_ADDON_NAME true args hsplit hweb hcat
      _ _ hstep, observe_initial]
  case _ =>
    intro htok
    have hb : base = CONST_HTTP_APPLICATION_ROUTING_ADDON_NAME ∨
        base = CONST_AZURE_POLICY_ADDON_NAME ∨ base = CONST_KUBE_DASHBOARD_ADDON_NAME := by
      rcases htok with rfl | rfl | rfl
      · exact Or.inl (Option.some.inj (by rw [← hcat]; rfl))
      · exact Or.inr (Or.inl (Option.some.inj (by rw [← hcat]; rfl)))
      · exact Or.inr (Or.inr (Option.some.inj (by rw [← hcat]; rfl)))
    have hunchecked := catalogAddonStep_enable_unchecked rg n args (initialWorking c) base
      (by rcases hb with rfl | rfl | rfl <;> decide)
      (by rcases hb with rfl | rfl | rfl <;> decide)
      (by rcases hb with rfl | rfl | rfl <;> decide)
      (by rcases hb with rfl | rfl | rfl <;> decide)
      (by rcases hb with rfl | rfl | rfl <;> decide)
      (by rcases hb with rfl | rfl | rfl <;> decide)
    exact ⟨_, update_addons_single_token_ok c rg n tok base true args hsplit hweb hcat
      _ hunchecked⟩

/-- Witness for C3 (amended): monitoring already enabled fails with the
disable-first message; http_application_routing already enabled succeeds. -/
theorem enable_already_enabled_witness :
    update_addons (ManagedCluster.mk
      (some [(CONST_MONITORING_ADDON_NAME, ManagedClusterAddonProfile.mk true none)])
      none none "" "")
      "rg" "n" "monitoring" true {} =
      .error ("The monitoring addon is already enabled for this managed cluster.\n" ++
        "To change monitoring configuration, run \x22az aks disable-addons -a monitoring\x22" ++
        "before enabling it again.",
        ManagedCluster.mk
          (some [(CONST_MONITORING_ADDON_NAME, ManagedClusterAddonProfile.mk true none)])
          none none "" "") ∧
    (∃ c', update_addons (ManagedCluster.mk
      (some [(CONST_HTTP_APPLICATION_ROUTING_ADDON_NAME,
        ManagedClusterAddonProfile.mk true none)]) none none "" "")
      "rg" "n" "http_application_routing" true {} = .ok c') :=
  ⟨(enable_already_enabled "monitoring" CONST_MONITORING_ADDON_NAME rfl
      (ManagedCluster.mk
        (some [(CONST_MONITORING_ADDON_NAME, ManagedClusterAddonProfile.mk true none)])
        none none "" "")
      [(CONST_MONITORING_ADDON_NAME, ManagedClusterAddonProfile.mk true none)]
      (ManagedClusterAddonProfile.mk true none) "rg" "n" {} rfl rfl rfl
      (by decide)).1 rfl,
   (enable_already_enabled "http_application_routing"
      CONST_HTTP_APPLICATION_ROUTING_ADDON_NAME rfl
      (ManagedCluster.mk
        (some [(CONST_HTTP_APPLICATION_ROUTING_ADDON_NAME,
          ManagedClusterAddonProfile.mk true none)]) none none "" "")
      [(CONST_HTTP_APPLICATION_ROUTING_ADDON_NAME,
        ManagedClusterAddonProfile.mk true none)]
      (ManagedClusterAddonProfile.mk true none) "rg" "n" {} rfl rfl rfl
      (by decide)).2.2.2.2.2.2 (Or.inl rfl)⟩

/-- The enable branch for the virtual-node add-on when the (coalesced)
profile is disabled and a subnet name is supplied: store the subnet config
under the suffixed canonical key and enable it. -/
theorem catalogAddonStep_enable_virtual_node (rg n : String) (args : UpdateArgs)
    (w0 : AddonMap) (s : String)
    (hsub : args.subnet_name = some s) (hs : s.data.isEmpty = false)
    (hdis : ((dictGet (coalesceCase w0 (CONST_VIRTUAL_NODE_ADDON_NAME ++ "Linux"))
      (CONST_VIRTUAL_NODE_ADDON_NAME ++ "Linux")).getD
        { enabled := false }).enabled = false) :
    catalogAddonStep rg n args true w0 CONST_VIRTUAL_NODE_ADDON_NAME =
      .ok (dictModify (dictInsert
        (coalesceCase w0 (CONST_VIRTUAL_NODE_ADDON_NAME ++ "Linux"))
        (CONST_VIRTUAL_NODE_ADDON_NAME ++ "Linux")
        { (dictGet (coalesceCase w0 (CONST_VIRTUAL_NODE_ADDON_NAME ++ "Linux"))
            (CONST_VIRTUAL_NODE_ADDON_NAME ++ "Linux")).getD { enabled := false } with
          config := some [(CONST_VIRTUAL_NODE_SUBNET_NAME, ConfigVal.str s)] })
        (CONST_VIRTUAL_NODE_ADDON_NAME ++ "Linux")
        (fun p => { p with enabled := true })) := by
  simp +decide [catalogAddonStep, pyStrFalsy, hsub, hs, hdis]

/-- C5: enabling "virtual-node" stores its profile under the canonical key
formed by appending "Linux" to the base key — `"aciConnectorLinux"` — and
every pre-existing entry whose key differs from the canonical key only in
letter case is removed, its profile coalesced under the canonical key before
the write; the resulting map holds the canonical entry (enabled, with the
subnet config) and no case-variant duplicate of the canonical key, with all
keys duplicate-free. -/
theorem virtual_node_canonicalization (c : ManagedCluster) (m : AddonMap)
    (rg n s : String) (args : UpdateArgs)
    (hm : c.addon_profiles = some m)
    (hnodup : (dictKeys m).Nodup)
    (hsub : args.subnet_name = some s) (hs : s.data.isEmpty = false)
    (hdisabled : ∀ e ∈ m,
      pyLower e.1 = pyLower (CONST_VIRTUAL_NODE_ADDON_NAME ++ "Linux") →
      e.2.enabled = false) :
    CONST_VIRTUAL_NODE_ADDON_NAME ++ "Linux" = "aciConnectorLinux" ∧
    ∃ m', update_addons c rg n "virtual-node" true args =
        .ok { c with
              addon_profiles := some m',
              service_principal_profile := none } ∧
      dictGet m' "aciConnectorLinux" = some (ManagedClusterAddonProfile.mk true
        (some [(CONST_VIRTUAL_NODE_SUBNET_NAME, ConfigVal.str s)])) ∧
      (dictKeys m').Nodup ∧
      (∀ k ∈ dictKeys m', pyLower k = pyLower "aciConnectorLinux" →
        k = "aciConnectorLinux") := by
  have hwork : initialWorking c = m := by
    simp only [initialWorking, hm]
    cases m with
    | nil => rfl
    | cons e t => rfl
  obtain ⟨cnodup, csub, cgone, cprov⟩ :=
    coalesceCase_spec m (CONST_VIRTUAL_NODE_ADDON_NAME ++ "Linux") hnodup
  have hdis : ((dictGet (coalesceCase m (CONST_VIRTUAL_NODE_ADDON_NAME ++ "Linux"))
      (CONST_VIRTUAL_NODE_ADDON_NAME ++ "Linux")).getD
        { enabled := false }).enabled = false := by
    cases hg : dictGet (coalesceCase m (CONST_VIRTUAL_NODE_ADDON_NAME ++ "Linux"))
        (CONST_VIRTUAL_NODE_ADDON_NAME ++ "Linux") with
    | none => rfl
    | some v =>
      have hmemv := dictGet_some_mem hg
      rcases cprov _ hmemv with hin | ⟨_, k', hk', hl'⟩
      · exact hdisabled _ hin rfl
      · exact hdisabled (k', v) hk' hl'
  have hstep := catalogAddonStep_enable_virtual_node rg n args m s hsub hs hdis
  have hstep' : catalogAddonStep rg n args true (initialWorking c)
      CONST_VIRTUAL_NODE_ADDON_NAME =
      .ok (dictModify (dictInsert
        (coalesceCase m (CONST_VIRTUAL_NODE_ADDON_NAME ++ "Linux"))
        (CONST_VIRTUAL_NODE_ADDON_NAME ++ "Linux")
        { (dictGet (coalesceCase m (CONST_VIRTUAL_NODE_ADDON_NAME ++ "Linux"))
            (CONST_VIRTUAL_NODE_ADDON_NAME ++ "Linux")).getD { enabled := false } with
          config := some [(CONST_VIRTUAL_NODE_SUBNET_NAME, ConfigVal.str s)] })
        (CONST_VIRTUAL_NODE_ADDON_NAME ++ "Linux")
        (fun p => { p with enabled := true })) := by
    rw [hwork]
    exact hstep
  refine ⟨rfl, _, update_addons_single_token_ok c rg n "virtual-node"
    CONST_VIRTUAL_NODE_ADDON_NAME true args rfl (by decide) rfl _ hstep', ?_, ?_, ?_⟩
  · rw [show ("aciConnectorLinux" : String) =
      CONST_VIRTUAL_NODE_ADDON_NAME ++ "Linux" from rfl]
    rw [dictGet_dictModify_self, dictGet_dictInsert_self]
    rfl
  · rw [dictKeys_dictModify]
    exact nodup_keys_dictInsert _ _ cnodup
  · intro k hk hl
    rw [dictKeys_dictModify] at hk
    rcases (mem_keys_dictInsert _ _ _ _).mp hk with hk' | hk'
    · by_contra hne
      have hkm : k ∈ dictKeys m := by
        rcases csub k hk' with h | h
        · exact h
        · exact absurd h hne
      exact cgone k hkm hl hne hk'
    · exact hk'

/-- Witness for C5: a differently-cased pre-existing entry
(`ACIConnectorLinux`) is merged away and the canonical `aciConnectorLinux`
entry is written. -/
theorem virtual_node_canonicalization_witness :
    CONST_VIRTUAL_NODE_ADDON_NAME ++ "Linux" = "aciConnectorLinux" ∧
    ∃ m', update_addons (ManagedCluster.mk
        (some [("ACIConnectorLinux", ManagedClusterAddonProfile.mk false none)])
        none none "" "")
        "rg" "n" "virtual-node" true { subnet_name := some "sub1" } =
        .ok { ManagedCluster.mk
            (some [("ACIConnectorLinux", ManagedClusterAddonProfile.mk false none)])
            none none "" "" with
          addon_profiles := some m',
          service_principal_profile := none } ∧
      dictGet m' "aciConnectorLinux" = some (ManagedClusterAddonProfile.mk true
        (some [(CONST_VIRTUAL_NODE_SUBNET_NAME, ConfigVal.str "sub1")])) ∧
      (dictKeys m').Nodup ∧
      (∀ k ∈ dictKeys m', pyLower k = pyLower "aciConnectorLinux" →
        k = "aciConnectorLinux") :=
  virtual_node_canonicalization
    (ManagedCluster.mk
      (some [("ACIConnectorLinux", ManagedClusterAddonProfile.mk false none)])
      none none "" "")
    [("ACIConnectorLinux", ManagedClusterAddonProfile.mk false none)]
    "rg" "n" "sub1" { subnet_name := some "sub1" }
    rfl (by decide) rfl rfl (by decide)

end AksPreview
